import Mathlib

/-!
Verification of the metrics/attribution computation layer of a
marketing-analytics dashboard.  The Python source operates on pandas
DataFrames of daily records; it is embedded shallowly here:

* numeric cell values are modelled by `FV`, an exact version of IEEE-754
  doubles: a finite value is carried as a rational (rounding and overflow are
  not modelled), plus the two infinities and NaN with their propagation and
  comparison rules (NaN compares false, x/0 with x > 0 is +inf, 0/0 is NaN);
* a DataFrame is a `Frame`: a list of column names plus a list of rows, each
  row holding a date key and an association list of column/value cells;
* pandas reductions (`sum`, `mean`, `std`) skip NaN cells, numpy reductions
  (`np.mean`) do not; both are modelled separately;
* fallible column access (`df[col]` raising `KeyError`) is modelled with
  `Except Unit`;
* `DataFrame.sort_values('date')` is modelled as a stable insertion sort on
  the date key.

The embedded functions keep the names of the Python functions they are
translated from (`validate_and_clean_data`, `calculate_derived_metrics`,
`calculate_kpis`, `calculate_attribution_model`,
`calculate_attribution_models_smart`, `smart_column_finder`,
`calculate_daily_performance_metrics`, `calculate_trend_direction`).
-/

namespace Spec2Proof

/-- Extended value: a finite double (kept exactly as a rational), an
infinity, or NaN. -/
inductive FV where
  | q (x : ℚ)
  | inf
  | ninf
  | nan
deriving DecidableEq, Repr

/-- True exactly on NaN. -/
def FV.isNan : FV → Bool
  | .nan => true
  | _ => false

/-- True exactly on finite values. -/
def FV.isFin : FV → Bool
  | .q _ => true
  | _ => false

/-- The rational carried by a finite value (0 otherwise). -/
def FV.toQ : FV → ℚ
  | .q x => x
  | _ => 0

/-- IEEE negation. -/
def FV.neg : FV → FV
  | .q a => .q (-a)
  | .inf => .ninf
  | .ninf => .inf
  | .nan => .nan

/-- IEEE addition: NaN propagates, inf + (-inf) is NaN. -/
def FV.add : FV → FV → FV
  | .q a, .q b => .q (a + b)
  | .q _, .inf => .inf
  | .q _, .ninf => .ninf
  | .inf, .q _ => .inf
  | .inf, .inf => .inf
  | .inf, .ninf => .nan
  | .ninf, .q _ => .ninf
  | .ninf, .inf => .nan
  | .ninf, .ninf => .ninf
  | _, _ => .nan

/-- IEEE subtraction. -/
def FV.sub : FV → FV → FV
  | .q a, .q b => .q (a - b)
  | .q _, .inf => .ninf
  | .q _, .ninf => .inf
  | .inf, .q _ => .inf
  | .inf, .inf => .nan
  | .inf, .ninf => .inf
  | .ninf, .q _ => .ninf
  | .ninf, .inf => .ninf
  | .ninf, .ninf => .nan
  | _, _ => .nan

/-- IEEE multiplication: 0 * inf is NaN. -/
def FV.mul : FV → FV → FV
  | .q a, .q b => .q (a * b)
  | .q a, .inf => if 0 < a then .inf else if a < 0 then .ninf else .nan
  | .q a, .ninf => if 0 < a then .ninf else if a < 0 then .inf else .nan
  | .inf, .q b => if 0 < b then .inf else if b < 0 then .ninf else .nan
  | .ninf, .q b => if 0 < b then .ninf else if b < 0 then .inf else .nan
  | .inf, .inf => .inf
  | .inf, .ninf => .ninf
  | .ninf, .inf => .ninf
  | .ninf, .ninf => .inf
  | _, _ => .nan

/-- IEEE division: x/0 is a signed infinity for x nonzero, 0/0 is NaN,
x/inf is 0, inf/inf is NaN.  (The sign of a zero denominator is not
modelled; a finite zero behaves as +0.) -/
def FV.div : FV → FV → FV
  | .q a, .q b =>
    if b = 0 then (if 0 < a then .inf else if a < 0 then .ninf else .nan)
    else .q (a / b)
  | .q _, .inf => .q 0
  | .q _, .ninf => .q 0
  | .inf, .q b => if 0 ≤ b then .inf else .ninf
  | .ninf, .q b => if 0 ≤ b then .ninf else .inf
  | .inf, .inf => .nan
  | .inf, .ninf => .nan
  | .ninf, .inf => .nan
  | .ninf, .ninf => .nan
  | _, _ => .nan

/-- IEEE strict comparison: any comparison with NaN is false. -/
def FV.lt : FV → FV → Bool
  | .q a, .q b => decide (a < b)
  | .q _, .inf => true
  | .q _, .ninf => false
  | .inf, .q _ => false
  | .inf, .inf => false
  | .inf, .ninf => false
  | .ninf, .q _ => true
  | .ninf, .inf => true
  | .ninf, .ninf => false
  | _, _ => false

/-- IEEE non-strict comparison: any comparison with NaN is false. -/
def FV.le : FV → FV → Bool
  | .q a, .q b => decide (a ≤ b)
  | .q _, .inf => true
  | .q _, .ninf => false
  | .inf, .q _ => false
  | .inf, .inf => true
  | .inf, .ninf => false
  | .ninf, .q _ => true
  | .ninf, .inf => true
  | .ninf, .ninf => true
  | _, _ => false

/-- IEEE absolute value. -/
def FV.abs : FV → FV
  | .q a => .q |a|
  | .inf => .inf
  | .ninf => .inf
  | .nan => .nan

/-- pandas `Series.clip(lower=0)` on one cell: negative values become 0,
NaN is left alone. -/
def FV.clip0 : FV → FV
  | .q a => .q (max a 0)
  | .inf => .inf
  | .ninf => .q 0
  | .nan => .nan

/-- pandas `fillna(0)` on one cell. -/
def FV.zeroIfNan : FV → FV
  | .nan => .q 0
  | v => v

/-- pandas `replace([np.inf, -np.inf], 0)` on one cell: infinities become 0,
NaN is left alone. -/
def FV.replaceInf : FV → FV
  | .inf => .q 0
  | .ninf => .q 0
  | v => v

/-- One DataFrame row: the date key (as an abstract day index) and the
named numeric cells. -/
structure Row where
  date : Int
  cells : List (String × FV)
deriving DecidableEq, Repr

/-- First value stored under a key in an association list. -/
def cellLookup (c : String) : List (String × FV) → Option FV
  | [] => none
  | p :: t => if p.1 = c then some p.2 else cellLookup c t

/-- Reading a cell; a key that is absent reads as NaN. -/
def Row.get (r : Row) (c : String) : FV :=
  (cellLookup c r.cells).getD .nan

/-- Writing a cell: an existing key is overwritten in place, a new key is
appended at the end (as a new DataFrame column is). -/
def Row.set (r : Row) (c : String) (v : FV) : Row :=
  if (cellLookup c r.cells).isSome then
    { r with cells := r.cells.map (fun p => if p.1 = c then (c, v) else p) }
  else
    { r with cells := r.cells ++ [(c, v)] }

/-- A DataFrame: column names in order, and the rows. -/
structure Frame where
  cols : List String
  rows : List Row
deriving DecidableEq, Repr

/-- Membership test on the column index (`col in df.columns`). -/
def Frame.hasCol (f : Frame) (c : String) : Bool :=
  f.cols.contains c

/-- The values of one column (`df[col]`), in row order. -/
def Frame.col (f : Frame) (c : String) : List FV :=
  f.rows.map (fun r => r.get c)

/-- Column assignment `df[c] = g(row)`: overwrites the column when present,
appends it at the end otherwise. -/
def Frame.setCol (f : Frame) (c : String) (g : Row → FV) : Frame :=
  { cols := if f.hasCol c then f.cols else f.cols ++ [c],
    rows := f.rows.map (fun r => r.set c (g r)) }

/-- Column assignment from a positional list of values (for rolling means,
which are computed per position on the sorted frame). -/
def Frame.setColVals (f : Frame) (c : String) (vs : List FV) : Frame :=
  { cols := if f.hasCol c then f.cols else f.cols ++ [c],
    rows := (f.rows.zip vs).map (fun p => p.1.set c p.2) }

/-- Insert a row into a list kept sorted by date, before any row of equal
date already there. -/
def insertByDate (r : Row) : List Row → List Row
  | [] => [r]
  | x :: xs => if r.date ≤ x.date then r :: x :: xs else x :: insertByDate r xs

/-- Stable insertion sort on the date key, modelling
`df.sort_values('date')`. -/
def sortRowsByDate : List Row → List Row
  | [] => []
  | x :: xs => insertByDate x (sortRowsByDate xs)

/-- `df.sort_values('date')`. -/
def Frame.sortByDate (f : Frame) : Frame :=
  { f with rows := sortRowsByDate f.rows }

/-- pandas `Series.sum()`: NaN cells are skipped, the empty sum is 0. -/
def fsum (l : List FV) : FV :=
  l.foldl (fun a v => if v.isNan then a else FV.add a v) (.q 0)

/-- The number of non-NaN cells. -/
def fcount (l : List FV) : Nat :=
  l.countP (fun v => !v.isNan)

/-- pandas `Series.mean()`: the NaN-skipping sum over the count of non-NaN
cells; NaN when there is no non-NaN cell. -/
def fmean (l : List FV) : FV :=
  if fcount l = 0 then .nan else FV.div (fsum l) (.q (fcount l))

/-- The non-NaN cells of a column. -/
def nonNanVals (l : List FV) : List FV :=
  l.filter (fun v => !v.isNan)

/-- True when every value in the list is finite. -/
def allFiniteFV (l : List FV) : Bool :=
  l.all (fun v => v.isFin)

/-- The sample variance (ddof = 1) of a list of rationals; meaningful for
lists of length at least 2. -/
def sampleVarQ (xs : List ℚ) : ℚ :=
  ((xs.map (fun x => (x - xs.sum / xs.length) ^ 2)).sum) / (xs.length - 1)

/-- The square of pandas `Series.std()` (sample standard deviation,
ddof = 1, NaN cells skipped): NaN when fewer than 2 non-NaN cells remain or
when a non-finite cell contributes (numpy then produces NaN), otherwise the
exact rational sample variance. -/
def fvarSample (l : List FV) : FV :=
  let l' := nonNanVals l
  if l'.length < 2 then .nan
  else if allFiniteFV l' then .q (sampleVarQ (l'.map FV.toQ)) else .nan

/-- The row-keeping test of the outlier filter,
`abs(v - mean) <= 3 * std`, with `std` the sample standard deviation of
`vals`.  Since the standard deviation is an irrational square root, the
finite case is decided by the equivalent squared comparison
`(v - mean)^2 <= 9 * variance` (both sides of the original comparison are
nonnegative, so squaring is an equivalence; see
`outlierKeep_squared_faithful`).  Any NaN on either side makes the
comparison false, so a NaN standard deviation (fewer than 2 usable cells)
keeps no row, and an infinite or NaN cell value is never kept. -/
def outlierKeep (vals : List FV) (v : FV) : Bool :=
  match fvarSample vals, fmean vals, v with
  | .q s2, .q m, .q x => decide ((x - m) ^ 2 ≤ 9 * s2)
  | _, _, _ => false

/-! Validator/Cleaner (`src/data_processing.py`, `validate_and_clean_data`). -/

/-- The financial columns clipped at 0 by `validate_and_clean_data`. -/
def financialColumns : List String :=
  ["total_revenue", "gross_profit", "COGS", "spend",
   "facebook_spend", "google_spend", "tiktok_spend",
   "attributed_revenue", "facebook_attributed revenue",
   "google_attributed revenue", "tiktok_attributed revenue"]

/-- `df[numeric_columns] = df[numeric_columns].fillna(0)`: every numeric
cell (all modelled cells are numeric) has NaN replaced by 0. -/
def fillZero (f : Frame) : Frame :=
  { f with rows := f.rows.map (fun r =>
      { r with cells := r.cells.map (fun p => (p.1, p.2.zeroIfNan)) }) }

/-- The clipping loop `for col in financial_columns: if col in df.columns:
df[col] = df[col].clip(lower=0)`. -/
def clipCols : List String → Frame → Frame
  | [], f => f
  | c :: cs, f =>
    clipCols cs (if f.hasCol c then
      { f with rows := f.rows.map (fun r => r.set c (r.get c).clip0) }
    else f)

/-- All financial columns clipped at 0. -/
def clipFinancial (f : Frame) : Frame :=
  clipCols financialColumns f

/-- The column assignment
`df['calculated_marketing_roas'] = np.where(df['spend'] > 0,
df['attributed_revenue'] / df['spend'], 0)`. -/
def addCalculatedRoas (f : Frame) : Frame :=
  f.setCol "calculated_marketing_roas" (fun r =>
    if FV.lt (.q 0) (r.get "spend") then
      FV.div (r.get "attributed_revenue") (r.get "spend")
    else .q 0)

/-- One iteration of the outlier-removal loop:
`if col in df.columns: mean = df[col].mean(); std = df[col].std();
df = df[abs(df[col] - mean) <= 3 * std]`.  The statistics are those of the
frame as it stands when the iteration runs. -/
def outlierStep (c : String) (f : Frame) : Frame :=
  if f.hasCol c then
    { f with rows := f.rows.filter (fun r => outlierKeep (f.col c) (r.get c)) }
  else f

/-- The columns the outlier loop visits, in source order. -/
def outlierColumns : List String :=
  ["marketing_roas", "total_revenue", "orders"]

/-- The sequential outlier loop: each later filter uses statistics of the
frame already shrunk by the earlier ones. -/
def outlierSteps : List String → Frame → Frame
  | [], f => f
  | c :: cs, f => outlierSteps cs (outlierStep c f)

/-- The whole outlier-removal pass. -/
def outlierPass (f : Frame) : Frame :=
  outlierSteps outlierColumns f

/-- The in-place column assignments of `validate_and_clean_data` in source
order: the fillna zero-fill, the clipping loop and the
`calculated_marketing_roas` column.  (The missing-value report and the
stored-versus-computed ROAS tolerance check only log warnings and change no
data; they are omitted.) -/
def cleanPrep (df : Frame) : Frame :=
  addCalculatedRoas (clipFinancial (fillZero df))

/-- `validate_and_clean_data(df)` including its caller-visible mutation.
The Python function assigns columns of its argument in place (`cleanPrep`),
then rebinds the local name `df` when filtering outlier rows, so the
caller's object ends in the state just before the row filtering while the
returned table is the filtered one.  The first component is the caller's
object after the call, the second the returned table.  Reading the missing
columns `spend` or `attributed_revenue` raises `KeyError`, modelled by
`Except.error`. -/
def validate_and_clean_mut (df : Frame) : Except Unit (Frame × Frame) :=
  if df.hasCol "spend" && df.hasCol "attributed_revenue" then
    Except.ok (cleanPrep df, outlierPass (cleanPrep df))
  else Except.error ()

/-- The value `validate_and_clean_data` returns to its caller. -/
def validate_and_clean_data (df : Frame) : Except Unit Frame :=
  (validate_and_clean_mut df).map Prod.snd

/-! Derived-Metrics Engine (`src/data_processing.py`,
`calculate_derived_metrics`). -/

/-- The zero-guarded ratio `np.where(den > 0, num / den, 0)`: the
condition is an IEEE comparison, so a NaN or nonpositive denominator
selects 0. -/
def whereRatio (num den : FV) : FV :=
  if FV.lt (.q 0) den then FV.div num den else .q 0

/-- The fixed platform list of the source. -/
def platformNames : List String :=
  ["facebook", "google", "tiktok"]

/-- One iteration of the platform CTR loop: the column
`{platform}_ctr = np.where(impressions > 0, clicks / impressions, 0)` is
added only when both source columns are present. -/
def addPlatformCtr (p : String) (f : Frame) : Frame :=
  if f.hasCol (p ++ "_impression") && f.hasCol (p ++ "_clicks") then
    f.setCol (p ++ "_ctr") (fun r =>
      whereRatio (r.get (p ++ "_clicks")) (r.get (p ++ "_impression")))
  else f

/-- One iteration of the platform CPC loop. -/
def addPlatformCpc (p : String) (f : Frame) : Frame :=
  if f.hasCol (p ++ "_spend") && f.hasCol (p ++ "_clicks") then
    f.setCol (p ++ "_cpc") (fun r =>
      whereRatio (r.get (p ++ "_spend")) (r.get (p ++ "_clicks")))
  else f

/-- One iteration of the platform ROAS loop. -/
def addPlatformRoas (p : String) (f : Frame) : Frame :=
  if f.hasCol (p ++ "_spend") && f.hasCol (p ++ "_attributed revenue") then
    f.setCol (p ++ "_roas") (fun r =>
      whereRatio (r.get (p ++ "_attributed revenue")) (r.get (p ++ "_spend")))
  else f

/-- A `for platform in [...]` loop over the platform list. -/
def addAll (g : String → Frame → Frame) : List String → Frame → Frame
  | [], f => f
  | p :: ps, f => addAll g ps (g p f)

/-- The 7-day rolling mean `rolling(window=7, min_periods=1).mean()` over a
positional list of values: at position i, the pandas NaN-skipping mean of
the up-to-7 values ending at i (NaN when the window holds no usable
value). -/
def rollMean7 (vals : List FV) : List FV :=
  (List.range vals.length).map (fun i => fmean ((vals.take (i + 1)).drop (i + 1 - 7)))

/-- Stages 1-5 of `calculate_derived_metrics`: the five unconditional
`np.where`-guarded ratio columns. -/
def derivedF5 (df : Frame) : Frame :=
  let f1 := df.setCol "cac" (fun r => whereRatio (r.get "spend") (r.get "new customers"))
  let f2 := f1.setCol "aov" (fun r => whereRatio (r.get "total_revenue") (r.get "orders"))
  let f3 := f2.setCol "ctr" (fun r => whereRatio (r.get "clicks") (r.get "impression"))
  let f4 := f3.setCol "cpc" (fun r => whereRatio (r.get "spend") (r.get "clicks"))
  f4.setCol "conversion_rate" (fun r => whereRatio (r.get "orders") (r.get "clicks"))

/-- Stages 6-13 of `calculate_derived_metrics`: the three platform loops,
`revenue_per_impression`, the calendar columns, and the sort by date. -/
def derivedF13 (df : Frame) : Frame :=
  let f6 := addAll addPlatformCtr platformNames (derivedF5 df)
  let f7 := addAll addPlatformCpc platformNames f6
  let f8 := addAll addPlatformRoas platformNames f7
  let f9 := f8.setCol "revenue_per_impression" (fun r =>
    whereRatio (r.get "total_revenue") (r.get "impression"))
  let f10 := f9.setCol "day_of_week" (fun r => .q (r.date % 7))
  let f11 := f10.setCol "week_number" (fun r => .q (r.date / 7))
  let f12 := f11.setCol "month" (fun r => .q (r.date / 30))
  f12.sortByDate

/-- The whole column-adding body of `calculate_derived_metrics`: the ratio
and calendar stages followed by the three 7-day rolling means. -/
def derivedPipeline (df : Frame) : Frame :=
  let f13 := derivedF13 df
  let f14 := f13.setColVals "revenue_7d_ma" (rollMean7 (f13.col "total_revenue"))
  let f15 := f14.setColVals "roas_7d_ma" (rollMean7 (f14.col "marketing_roas"))
  f15.setColVals "orders_7d_ma" (rollMean7 (f15.col "orders"))

/-- `calculate_derived_metrics(df)`.  The function reads the columns
`new customers`, `spend`, `orders`, `total_revenue`, `impression`, `clicks`
and `marketing_roas` unconditionally (raising `KeyError` when one is
absent, modelled by `Except.error`); the platform loops check column
presence and skip silently.  The calendar columns (`day_of_week`,
`week_number`, `month`) are pure functions of the date field; the calendar
itself is not modelled, so they are represented by injective stand-ins on
the abstract day index (no claim mentions them).  The frame is then sorted
by date and the three 7-day rolling-mean columns are appended
positionally. -/
def calculate_derived_metrics (df : Frame) : Except Unit Frame :=
  if df.hasCol "new customers" && df.hasCol "spend" && df.hasCol "orders" &&
     df.hasCol "total_revenue" && df.hasCol "impression" && df.hasCol "clicks" &&
     df.hasCol "marketing_roas" then
    Except.ok (derivedPipeline df)
  else Except.error ()

/-! KPI Aggregator (`src/metrics_calculator.py`, `calculate_kpis`). -/

/-- The scalar KPI dictionary returned by `calculate_kpis`. -/
structure KPIs where
  total_revenue : FV
  total_orders : FV
  total_spend : FV
  total_new_customers : FV
  avg_aov : FV
  avg_roas : FV
  avg_profit_margin : FV
  attribution_rate : FV
  total_attributed_revenue : FV
  revenue_growth : FV
  order_growth : FV
  roas_trend : FV
  margin_trend : FV
  cac : FV
  ltv_cac_ratio : FV
deriving DecidableEq, Repr

/-- `calculate_kpis(df)`.  The revenue and orders columns are resolved by
presence (`total_revenue` over `total revenue`, `orders` over
`# of orders`); every other column read is unconditional, so a missing one
raises `KeyError`, modelled by `Except.error`.  The growth metrics sort by
date, split at the midpoint index `len // 2` and compare the two halves. -/
def calculate_kpis (df : Frame) : Except Unit KPIs :=
  let revenueCol := if df.hasCol "total_revenue" then "total_revenue" else "total revenue"
  let ordersCol := if df.hasCol "orders" then "orders" else "# of orders"
  if df.hasCol revenueCol && df.hasCol ordersCol && df.hasCol "spend" &&
     df.hasCol "marketing_roas" && df.hasCol "profit_margin" &&
     df.hasCol "new customers" && df.hasCol "attributed revenue" &&
     df.hasCol "attribution_rate" then
    let total_revenue := fsum (df.col revenueCol)
    let total_orders := fsum (df.col ordersCol)
    let total_spend := fsum (df.col "spend")
    let sorted := sortRowsByDate df.rows
    let mid := sorted.length / 2
    let firstHalf := sorted.take mid
    let secondHalf := sorted.drop mid
    let fhRevenue := fsum (firstHalf.map (fun r => r.get revenueCol))
    let shRevenue := fsum (secondHalf.map (fun r => r.get revenueCol))
    let revenue_growth :=
      if FV.lt (.q 0) fhRevenue then
        FV.mul (FV.div (FV.sub shRevenue fhRevenue) fhRevenue) (.q 100)
      else .q 0
    let fhOrders := fsum (firstHalf.map (fun r => r.get ordersCol))
    let shOrders := fsum (secondHalf.map (fun r => r.get ordersCol))
    let order_growth :=
      if FV.lt (.q 0) fhOrders then
        FV.mul (FV.div (FV.sub shOrders fhOrders) fhOrders) (.q 100)
      else .q 0
    let avg_roas := fmean (df.col "marketing_roas")
    let roas_trend := FV.sub (fmean (secondHalf.map (fun r => r.get "marketing_roas")))
      (fmean (firstHalf.map (fun r => r.get "marketing_roas")))
    let avg_profit_margin := fmean (df.col "profit_margin")
    let margin_trend := FV.sub (fmean (secondHalf.map (fun r => r.get "profit_margin")))
      (fmean (firstHalf.map (fun r => r.get "profit_margin")))
    let total_new_customers := fsum (df.col "new customers")
    let avg_aov := if FV.lt (.q 0) total_orders then FV.div total_revenue total_orders else .q 0
    let total_attributed_revenue := fsum (df.col "attributed revenue")
    let attribution_rate := fmean (df.col "attribution_rate")
    let cac := if FV.lt (.q 0) total_new_customers then
        FV.div total_spend total_new_customers
      else .q 0
    let ltv_cac_ratio := if FV.lt (.q 0) total_new_customers then
        FV.div (FV.mul avg_aov (.q 3)) (FV.div total_spend total_new_customers)
      else .q 0
    Except.ok {
      total_revenue := total_revenue
      total_orders := total_orders
      total_spend := total_spend
      total_new_customers := total_new_customers
      avg_aov := avg_aov
      avg_roas := avg_roas
      avg_profit_margin := avg_profit_margin
      attribution_rate := attribution_rate
      total_attributed_revenue := total_attributed_revenue
      revenue_growth := revenue_growth
      order_growth := order_growth
      roas_trend := roas_trend
      margin_trend := margin_trend
      cac := cac
      ltv_cac_ratio := ltv_cac_ratio }
  else Except.error ()

/-! Attribution Modeler (`src/metrics_calculator.py`,
`calculate_attribution_model`). -/

/-- An allocation of revenue across the three platforms. -/
structure Alloc where
  facebook : FV
  google : FV
  tiktok : FV
deriving DecidableEq, Repr

/-- The three attribution models `calculate_attribution_model` returns
(this function computes no time-decay model). -/
structure AttributionModels where
  last_click : Alloc
  spend_based : Alloc
  linear : Alloc
deriving DecidableEq, Repr

/-- `calculate_attribution_model(df)`.  Every platform column is read
unconditionally, so a missing one raises `KeyError`, modelled by
`Except.error`. -/
def calculate_attribution_model (df : Frame) : Except Unit AttributionModels :=
  let revenueCol := if df.hasCol "total_revenue" then "total_revenue" else "total revenue"
  if df.hasCol "facebook_attributed revenue" && df.hasCol "google_attributed revenue" &&
     df.hasCol "tiktok_attributed revenue" && df.hasCol "facebook_spend" &&
     df.hasCol "google_spend" && df.hasCol "tiktok_spend" && df.hasCol revenueCol then
    let lcF := fsum (df.col "facebook_attributed revenue")
    let lcG := fsum (df.col "google_attributed revenue")
    let lcT := fsum (df.col "tiktok_attributed revenue")
    let sF := fsum (df.col "facebook_spend")
    let sG := fsum (df.col "google_spend")
    let sT := fsum (df.col "tiktok_spend")
    let totalSpend := FV.add (FV.add sF sG) sT
    let totalRevenue := fsum (df.col revenueCol)
    let sbF := if FV.lt (.q 0) totalSpend then FV.mul (FV.div sF totalSpend) totalRevenue else .q 0
    let sbG := if FV.lt (.q 0) totalSpend then FV.mul (FV.div sG totalSpend) totalRevenue else .q 0
    let sbT := if FV.lt (.q 0) totalSpend then FV.mul (FV.div sT totalSpend) totalRevenue else .q 0
    let lin := FV.div totalRevenue (.q 3)
    Except.ok {
      last_click := ⟨lcF, lcG, lcT⟩
      spend_based := ⟨sbF, sbG, sbT⟩
      linear := ⟨lin, lin, lin⟩ }
  else Except.error ()

/-! Smart attribution (`pages/Attribution_Analysis.py`,
`smart_column_finder` and `calculate_attribution_models_smart`). -/

/-- ASCII lower-casing of one character (`str.lower`). -/
def lcChar (c : Char) : Char :=
  if 65 ≤ c.toNat && c.toNat ≤ 90 then Char.ofNat (c.toNat + 32) else c

/-- The character list of the lower-cased string. -/
def lcList (s : String) : List Char :=
  s.toList.map lcChar

/-- Substring containment on character lists (Python `needle in hay`). -/
def hasSeq (needle : List Char) : List Char → Bool
  | [] => needle.isEmpty
  | c :: rest => needle.isPrefixOf (c :: rest) || hasSeq needle rest

/-- Python `needle in hay.lower()` for a lower-case literal needle. -/
def strHasLower (hay needle : String) : Bool :=
  hasSeq needle.toList (lcList hay)

/-- The column mapping built by `smart_column_finder` (each entry is the
first matching column name, when one exists). -/
structure SmartMap where
  total_revenue : Option String
  fb_attr : Option String
  g_attr : Option String
  tk_attr : Option String
  fb_spend : Option String
  g_spend : Option String
  tk_spend : Option String
  attr_rate : Option String
deriving DecidableEq, Repr

/-- The fixed platform set. -/
inductive Platform where
  | facebook
  | google
  | tiktok
deriving DecidableEq, Repr

/-- The lower-case name of a platform. -/
def Platform.lowName : Platform → String
  | .facebook => "facebook"
  | .google => "google"
  | .tiktok => "tiktok"

/-- The mapped attributed-revenue column of a platform. -/
def SmartMap.attrCol (m : SmartMap) : Platform → Option String
  | .facebook => m.fb_attr
  | .google => m.g_attr
  | .tiktok => m.tk_attr

/-- The mapped spend column of a platform. -/
def SmartMap.spendCol (m : SmartMap) : Platform → Option String
  | .facebook => m.fb_spend
  | .google => m.g_spend
  | .tiktok => m.tk_spend

/-- The projection of an allocation on a platform. -/
def Alloc.get (a : Alloc) : Platform → FV
  | .facebook => a.facebook
  | .google => a.google
  | .tiktok => a.tiktok

/-- `smart_column_finder(df)`: each loop scans `df.columns` in order and
breaks at the first column whose lower-cased name satisfies the substring
test, which is exactly `List.find?` of the loop condition. -/
def smart_column_finder (cols : List String) : SmartMap :=
  { total_revenue := cols.find? (fun c =>
      (strHasLower c "total" && strHasLower c "revenue") || lcList c == "revenue".toList)
    fb_attr := cols.find? (fun c => strHasLower c "facebook" && strHasLower c "revenue")
    g_attr := cols.find? (fun c => strHasLower c "google" && strHasLower c "revenue")
    tk_attr := cols.find? (fun c => strHasLower c "tiktok" && strHasLower c "revenue")
    fb_spend := cols.find? (fun c => strHasLower c "facebook" && strHasLower c "spend")
    g_spend := cols.find? (fun c => strHasLower c "google" && strHasLower c "spend")
    tk_spend := cols.find? (fun c => strHasLower c "tiktok" && strHasLower c "spend")
    attr_rate := cols.find? (fun c => strHasLower c "attribution" && strHasLower c "rate") }

/-- The four attribution models of `calculate_attribution_models_smart`. -/
structure AttributionModels4 where
  last_click : Alloc
  spend_based : Alloc
  time_decay : Alloc
  linear : Alloc
deriving DecidableEq, Repr

/-- One platform's last-click value: the plain column sum when the mapped
attributed-revenue column is present, 0 otherwise. -/
def smartLastClick (df : Frame) (m : SmartMap) (p : Platform) : FV :=
  match m.attrCol p with
  | some c => if df.hasCol c then fsum (df.col c) else .q 0
  | none => .q 0

/-- One platform's time-decay value: the weighted sum
`(df_sorted[attr_col] * np.exp(np.linspace(-2, 0, n))).sum()` over the
date-sorted frame when the mapped column is present, 0 otherwise.  The
weight vector `exp(linspace(-2, 0, n))` is irrational, so the embedding
takes the weights as the parameter `w` (intended: `w n` is that vector);
no claim depends on its value. -/
def smartTimeDecay (w : Nat → List FV) (df : Frame) (m : SmartMap) (p : Platform) : FV :=
  match m.attrCol p with
  | some c =>
    if df.hasCol c then
      fsum (List.zipWith FV.mul ((Frame.sortByDate df).col c) (w df.rows.length))
    else .q 0
  | none => .q 0

/-- The accumulated `total_spend`: platforms whose mapped spend column is
present contribute their column sum. -/
def smartTotalSpend (df : Frame) (m : SmartMap) : FV :=
  [Platform.facebook, Platform.google, Platform.tiktok].foldl (fun acc p =>
    match m.spendCol p with
    | some c => if df.hasCol c then FV.add acc (fsum (df.col c)) else acc
    | none => acc) (.q 0)

/-- One platform's spend-based value: `(spend / total_spend) * total_revenue`
when the mapped spend column is present and the total spend is positive,
0 otherwise. -/
def smartSpendBased (df : Frame) (m : SmartMap) (totalSpend totalRevenue : FV)
    (p : Platform) : FV :=
  match m.spendCol p with
  | some c =>
    if df.hasCol c && FV.lt (.q 0) totalSpend then
      FV.mul (FV.div (fsum (df.col c)) totalSpend) totalRevenue
    else .q 0
  | none => .q 0

/-- `calculate_attribution_models_smart(df, column_mapping)`: returns
`None` (modelled `Except.error`) when the mapping found no total-revenue
column; reading a mapped but absent total-revenue column would raise,
also modelled `Except.error`.  Each platform contributes its last-click,
time-decay and spend-based values as above, and the linear model gives
every platform `total_revenue / 3` unconditionally. -/
def calculate_attribution_models_smart (w : Nat → List FV) (df : Frame)
    (m : SmartMap) : Except Unit AttributionModels4 :=
  match m.total_revenue with
  | none => Except.error ()
  | some rc =>
    if df.hasCol rc then
      let totalRevenue := fsum (df.col rc)
      let totalSpend := smartTotalSpend df m
      let lin := FV.div totalRevenue (.q 3)
      Except.ok {
        last_click := ⟨smartLastClick df m .facebook, smartLastClick df m .google,
          smartLastClick df m .tiktok⟩
        spend_based := ⟨smartSpendBased df m totalSpend totalRevenue .facebook,
          smartSpendBased df m totalSpend totalRevenue .google,
          smartSpendBased df m totalSpend totalRevenue .tiktok⟩
        time_decay := ⟨smartTimeDecay w df m .facebook, smartTimeDecay w df m .google,
          smartTimeDecay w df m .tiktok⟩
        linear := ⟨lin, lin, lin⟩ }
    else Except.error ()

/-! Daily performance metrics (`src/metrics_calculator.py`,
`calculate_daily_performance_metrics`). -/

/-- The five daily ratio columns of `calculate_daily_performance_metrics`:
a plain division followed by `replace([np.inf, -np.inf], 0)` (NaN from 0/0
is NOT replaced), with the revenue and orders column names `rc` and `oc`
resolved by the caller. -/
def dailyF5 (df : Frame) (rc oc : String) : Frame :=
  let f1 := df.setCol "daily_roas" (fun r =>
    (FV.div (r.get "attributed revenue") (r.get "spend")).replaceInf)
  let f2 := f1.setCol "daily_aov" (fun r =>
    (FV.div (r.get rc) (r.get oc)).replaceInf)
  let f3 := f2.setCol "daily_cac" (fun r =>
    (FV.div (r.get "spend") (r.get "new customers")).replaceInf)
  let f4 := f3.setCol "daily_conversion_rate" (fun r =>
    (FV.div (r.get oc) (r.get "clicks")).replaceInf)
  f4.setCol "daily_ctr" (fun r =>
    (FV.div (r.get "clicks") (r.get "impression")).replaceInf)

/-- The whole body of `calculate_daily_performance_metrics`: the daily
ratio columns, the sort by date and the three rolling means. -/
def dailyPipeline (df : Frame) (rc oc : String) : Frame :=
  let f6 := (dailyF5 df rc oc).sortByDate
  let f7 := f6.setColVals "revenue_7d_ma" (rollMean7 (f6.col rc))
  let f8 := f7.setColVals "roas_7d_ma" (rollMean7 (f7.col "marketing_roas"))
  f8.setColVals "spend_7d_ma" (rollMean7 (f8.col "spend"))

/-- `calculate_daily_performance_metrics(df)`: works on `df.copy()` (the
input is untouched), adds the five daily ratio columns, then sorts by date
and appends three rolling means. -/
def calculate_daily_performance_metrics (df : Frame) : Except Unit Frame :=
  let revenueCol := if df.hasCol "total_revenue" then "total_revenue" else "total revenue"
  let ordersCol := if df.hasCol "orders" then "orders" else "# of orders"
  if df.hasCol "attributed revenue" && df.hasCol "spend" && df.hasCol revenueCol &&
     df.hasCol ordersCol && df.hasCol "new customers" && df.hasCol "clicks" &&
     df.hasCol "impression" && df.hasCol "marketing_roas" then
    Except.ok (dailyPipeline df revenueCol ordersCol)
  else Except.error ()

/-! Trend-Direction Classifier (`pages/Trends_Insights.py`,
`calculate_trend_direction`). -/

/-- numpy sum (`np.sum` semantics: NaN is NOT skipped). -/
def npSumFV (l : List FV) : FV :=
  l.foldl FV.add (.q 0)

/-- `np.mean` (NaN propagates, unlike the pandas mean). -/
def npMeanFV (l : List FV) : FV :=
  FV.div (npSumFV l) (.q l.length)

/-- The ordinary-least-squares slope of a series against the row index
0, 1, ..., n-1, in the standard closed form
`(n * sum(x*y) - sum(x) * sum(y)) / (n * sum(x^2) - sum(x)^2)`: the
regression coefficient `sklearn.LinearRegression` fits. -/
def olsSlopeQ (ys : List ℚ) : ℚ :=
  let n : ℚ := ys.length
  let xs : List ℚ := (List.range ys.length).map (fun i => (i : ℚ))
  (n * (List.zipWith (fun a b => a * b) xs ys).sum - xs.sum * ys.sum) /
    (n * (xs.map (fun a => a ^ 2)).sum - xs.sum ^ 2)

/-- The shared classification tail of `calculate_trend_direction`:
stable when `abs(slope) < 0.01 * np.mean(y)`, else by the sign of the
slope. -/
def classifyTrend (slope mean : FV) : String × FV :=
  if FV.lt (FV.abs slope) (FV.mul (.q (1 / 100)) mean) then ("stable", slope)
  else if FV.lt (.q 0) slope then ("increasing", slope)
  else ("decreasing", slope)

/-- The body of the `try` block of `calculate_trend_direction`.  With
sklearn available the regression is fitted (`LinearRegression.fit` raises
`ValueError` on NaN or infinite input, the only exception this block can
raise, modelled by `Except.error`; on finite input the slope is the exact
OLS coefficient).  Without sklearn the fallback slope
`(y[-1] - y[0]) / len(y)` is plain float arithmetic and cannot raise. -/
def trendCore (sklearnAvailable : Bool) (s : List FV) : Except Unit (String × FV) :=
  if sklearnAvailable then
    if allFiniteFV s then
      Except.ok (classifyTrend (.q (olsSlopeQ (s.map FV.toQ))) (npMeanFV s))
    else Except.error ()
  else
    Except.ok (classifyTrend
      (FV.div (FV.sub (s.getLastD (.q 0)) (s.headD (.q 0))) (.q s.length)) (npMeanFV s))

/-- `calculate_trend_direction(series)`: series shorter than 2 return
`("stable", 0)` at once; otherwise the body runs under `try`, with any
exception also mapped to `("stable", 0)`. -/
def calculate_trend_direction (sklearnAvailable : Bool) (s : List FV) : String × FV :=
  if s.length < 2 then ("stable", .q 0)
  else
    match trendCore sklearnAvailable s with
    | .ok r => r
    | .error _ => ("stable", .q 0)

/-! A comparison definition following the specification's wording of the
outlier filter, which prescribes the population standard deviation; the code
(`df[col].std()`, pandas default `ddof=1`) uses the sample standard
deviation instead.  The two pipelines are compared on a concrete table. -/

/-- The population variance (ddof = 0) of a list of rationals. -/
def populationVarQ (xs : List ℚ) : ℚ :=
  ((xs.map (fun x => (x - xs.sum / xs.length) ^ 2)).sum) / xs.length

/-- The square of the population standard deviation of a column, NaN-cells
skipped, with the same non-finite handling as `fvarSample`. -/
def fvarPop (l : List FV) : FV :=
  let l' := nonNanVals l
  if l'.length = 0 then .nan
  else if allFiniteFV l' then .q (populationVarQ (l'.map FV.toQ)) else .nan

/-- Follows the specification's wording of the keep test: keep the rows
with `abs(v - mean) <= 3 * population_std`, decided by squaring as in
`outlierKeep`. -/
def outlierKeepPop (vals : List FV) (v : FV) : Bool :=
  match fvarPop vals, fmean vals, v with
  | .q s2, .q m, .q x => decide ((x - m) ^ 2 ≤ 9 * s2)
  | _, _, _ => false

/-- One outlier iteration under the specification's population-std
wording. -/
def outlierStepPop (c : String) (f : Frame) : Frame :=
  if f.hasCol c then
    { f with rows := f.rows.filter (fun r => outlierKeepPop (f.col c) (r.get c)) }
  else f

/-- The sequential outlier loop under the population-std wording. -/
def outlierStepsPop : List String → Frame → Frame
  | [], f => f
  | c :: cs, f => outlierStepsPop cs (outlierStepPop c f)

/-- The cleaning pipeline as the specification words it (population
standard deviation in the outlier filter, all else as the code). -/
def validate_and_clean_pop (df : Frame) : Except Unit Frame :=
  if df.hasCol "spend" && df.hasCol "attributed_revenue" then
    Except.ok (outlierStepsPop outlierColumns
      (addCalculatedRoas (clipFinancial (fillZero df))))
  else Except.error ()

/-! Extractors used to name concrete results in closed statements. -/

/-- The frame of a successful result (the empty frame on error). -/
def okFrame (e : Except Unit Frame) : Frame :=
  match e with
  | .ok f => f
  | .error _ => ⟨[], []⟩

/-- The KPI set of a successful result (an all-NaN set on error). -/
def okKPIs (e : Except Unit KPIs) : KPIs :=
  match e with
  | .ok k => k
  | .error _ =>
    ⟨.nan, .nan, .nan, .nan, .nan, .nan, .nan, .nan, .nan, .nan, .nan, .nan, .nan, .nan, .nan⟩

/-- The models of a successful result (an all-NaN allocation on error). -/
def okAttr (e : Except Unit AttributionModels) : AttributionModels :=
  match e with
  | .ok a => a
  | .error _ => ⟨⟨.nan, .nan, .nan⟩, ⟨.nan, .nan, .nan⟩, ⟨.nan, .nan, .nan⟩⟩

/-- The models of a successful smart result (all-NaN on error). -/
def okAttr4 (e : Except Unit AttributionModels4) : AttributionModels4 :=
  match e with
  | .ok a => a
  | .error _ =>
    ⟨⟨.nan, .nan, .nan⟩, ⟨.nan, .nan, .nan⟩, ⟨.nan, .nan, .nan⟩, ⟨.nan, .nan, .nan⟩⟩

/-- The first row of a frame (a dummy empty row when there is none). -/
def rowOf (f : Frame) : Row :=
  f.rows.headD ⟨0, []⟩

/-! Concrete input tables used by the witnesses and counterexamples. -/

/-- One ordinary row with every column the derived-metrics and
daily-metrics functions read, plus the four facebook source columns (so one
platform loop fires while google and tiktok are skipped). -/
def dfC1w : Frame :=
  ⟨["new customers", "spend", "orders", "total_revenue", "impression",
    "clicks", "marketing_roas", "attributed revenue", "facebook_impression",
    "facebook_clicks", "facebook_spend", "facebook_attributed revenue"],
   [⟨1, [("new customers", .q 2), ("spend", .q 10), ("orders", .q 5),
      ("total_revenue", .q 20), ("impression", .q 100), ("clicks", .q 10),
      ("marketing_roas", .q 1), ("attributed revenue", .q 8),
      ("facebook_impression", .q 40), ("facebook_clicks", .q 2),
      ("facebook_spend", .q 4), ("facebook_attributed revenue", .q 8)]⟩]⟩

/-- The row `calculate_derived_metrics` produces from the row of `dfC1w`. -/
def rowC1d : Row :=
  ⟨1, [("new customers", .q 2), ("spend", .q 10), ("orders", .q 5),
    ("total_revenue", .q 20), ("impression", .q 100), ("clicks", .q 10),
    ("marketing_roas", .q 1), ("attributed revenue", .q 8),
    ("facebook_impression", .q 40), ("facebook_clicks", .q 2),
    ("facebook_spend", .q 4), ("facebook_attributed revenue", .q 8),
    ("cac", .q 5), ("aov", .q 4), ("ctr", .q (1 / 10)), ("cpc", .q 1),
    ("conversion_rate", .q (1 / 2)), ("facebook_ctr", .q (1 / 20)),
    ("facebook_cpc", .q 2), ("facebook_roas", .q 2),
    ("revenue_per_impression", .q (1 / 5)), ("day_of_week", .q 0),
    ("week_number", .q (1 / 7)), ("month", .q (1 / 30)), ("revenue_7d_ma", .q 20),
    ("roas_7d_ma", .q 1), ("orders_7d_ma", .q 5)]⟩

/-- The row `calculate_daily_performance_metrics` produces from the row of
`dfC1w`. -/
def rowC1y : Row :=
  ⟨1, [("new customers", .q 2), ("spend", .q 10), ("orders", .q 5),
    ("total_revenue", .q 20), ("impression", .q 100), ("clicks", .q 10),
    ("marketing_roas", .q 1), ("attributed revenue", .q 8),
    ("facebook_impression", .q 40), ("facebook_clicks", .q 2),
    ("facebook_spend", .q 4), ("facebook_attributed revenue", .q 8),
    ("daily_roas", .q (4 / 5)), ("daily_aov", .q 4), ("daily_cac", .q 5),
    ("daily_conversion_rate", .q (1 / 2)), ("daily_ctr", .q (1 / 10)),
    ("revenue_7d_ma", .q 20), ("roas_7d_ma", .q 1), ("spend_7d_ma", .q 10)]⟩

/-- A day with no spend and no attributed revenue: the daily ROAS is the
float division 0/0. -/
def dfC1x : Frame :=
  ⟨["new customers", "spend", "orders", "total_revenue", "impression",
    "clicks", "marketing_roas", "attributed revenue"],
   [⟨1, [("new customers", .q 0), ("spend", .q 0), ("orders", .q 0),
      ("total_revenue", .q 0), ("impression", .q 0), ("clicks", .q 0),
      ("marketing_roas", .q 0), ("attributed revenue", .q 0)]⟩]⟩

/-- Two identical days: platform spends 60/40/0, total revenue 500 each. -/
def dfC2w : Frame :=
  ⟨["facebook_attributed revenue", "google_attributed revenue",
    "tiktok_attributed revenue", "facebook_spend", "google_spend",
    "tiktok_spend", "total_revenue"],
   [⟨1, [("facebook_attributed revenue", .q 150), ("google_attributed revenue", .q 75),
      ("tiktok_attributed revenue", .q 0), ("facebook_spend", .q 60),
      ("google_spend", .q 40), ("tiktok_spend", .q 0), ("total_revenue", .q 500)]⟩,
    ⟨2, [("facebook_attributed revenue", .q 150), ("google_attributed revenue", .q 75),
      ("tiktok_attributed revenue", .q 0), ("facebook_spend", .q 60),
      ("google_spend", .q 40), ("tiktok_spend", .q 0), ("total_revenue", .q 500)]⟩]⟩

/-- A table with facebook and google columns but not a single column
mentioning tiktok; total revenue 300. -/
def dfC3x : Frame :=
  ⟨["total_revenue", "facebook_attributed revenue", "facebook_spend",
    "google_attributed revenue", "google_spend"],
   [⟨1, [("total_revenue", .q 300), ("facebook_attributed revenue", .q 100),
      ("facebook_spend", .q 60), ("google_attributed revenue", .q 50),
      ("google_spend", .q 40)]⟩]⟩

/-- Two days whose revenues are all zero: the second half's sum (0) is
double the first half's sum (0). -/
def dfC4x : Frame :=
  ⟨["total_revenue", "orders", "spend", "marketing_roas", "profit_margin",
    "new customers", "attributed revenue", "attribution_rate"],
   [⟨1, [("total_revenue", .q 0), ("orders", .q 0), ("spend", .q 0),
      ("marketing_roas", .q 0), ("profit_margin", .q 0), ("new customers", .q 0),
      ("attributed revenue", .q 0), ("attribution_rate", .q 0)]⟩,
    ⟨2, [("total_revenue", .q 0), ("orders", .q 0), ("spend", .q 0),
      ("marketing_roas", .q 0), ("profit_margin", .q 0), ("new customers", .q 0),
      ("attributed revenue", .q 0), ("attribution_rate", .q 0)]⟩]⟩

/-- Two days with revenues 100 and 200: the second half doubles the
first. -/
def dfC4w : Frame :=
  ⟨["total_revenue", "orders", "spend", "marketing_roas", "profit_margin",
    "new customers", "attributed revenue", "attribution_rate"],
   [⟨1, [("total_revenue", .q 100), ("orders", .q 1), ("spend", .q 1),
      ("marketing_roas", .q 1), ("profit_margin", .q 1), ("new customers", .q 1),
      ("attributed revenue", .q 1), ("attribution_rate", .q 1)]⟩,
    ⟨2, [("total_revenue", .q 200), ("orders", .q 2), ("spend", .q 1),
      ("marketing_roas", .q 1), ("profit_margin", .q 1), ("new customers", .q 1),
      ("attributed revenue", .q 1), ("attribution_rate", .q 1)]⟩]⟩

/-- Eleven days with revenues nine 0s, one 1 and one 10 (mean 1, sample
variance 9, population variance 90/11): the row with revenue 10 deviates by
exactly 3 sample standard deviations, so the code keeps it, while 3
population standard deviations (the specification's wording) would drop
it. -/
def dfC5x : Frame :=
  ⟨["spend", "attributed_revenue", "total_revenue"],
   [⟨1, [("spend", .q 0), ("attributed_revenue", .q 0), ("total_revenue", .q 0)]⟩,
    ⟨2, [("spend", .q 0), ("attributed_revenue", .q 0), ("total_revenue", .q 0)]⟩,
    ⟨3, [("spend", .q 0), ("attributed_revenue", .q 0), ("total_revenue", .q 0)]⟩,
    ⟨4, [("spend", .q 0), ("attributed_revenue", .q 0), ("total_revenue", .q 0)]⟩,
    ⟨5, [("spend", .q 0), ("attributed_revenue", .q 0), ("total_revenue", .q 0)]⟩,
    ⟨6, [("spend", .q 0), ("attributed_revenue", .q 0), ("total_revenue", .q 0)]⟩,
    ⟨7, [("spend", .q 0), ("attributed_revenue", .q 0), ("total_revenue", .q 0)]⟩,
    ⟨8, [("spend", .q 0), ("attributed_revenue", .q 0), ("total_revenue", .q 0)]⟩,
    ⟨9, [("spend", .q 0), ("attributed_revenue", .q 0), ("total_revenue", .q 0)]⟩,
    ⟨10, [("spend", .q 0), ("attributed_revenue", .q 0), ("total_revenue", .q 1)]⟩,
    ⟨11, [("spend", .q 0), ("attributed_revenue", .q 0), ("total_revenue", .q 10)]⟩]⟩

/-- Two plain rows with only the columns the cleaner requires. -/
def dfC6w : Frame :=
  ⟨["spend", "attributed_revenue"],
   [⟨1, [("spend", .q 5), ("attributed_revenue", .q 10)]⟩,
    ⟨2, [("spend", .q 4), ("attributed_revenue", .q 8)]⟩]⟩

/-- A clean one-row table (no NaN, no negatives) that nonetheless gains the
`calculated_marketing_roas` column on the caller's object. -/
def dfC8x : Frame :=
  ⟨["spend", "attributed_revenue"],
   [⟨1, [("spend", .q 5), ("attributed_revenue", .q 5)]⟩]⟩

/-- A one-row table carrying one of the outlier-filtered columns. -/
def dfC9w : Frame :=
  ⟨["spend", "attributed_revenue", "total_revenue"],
   [⟨1, [("spend", .q 1), ("attributed_revenue", .q 2), ("total_revenue", .q 3)]⟩]⟩

/-! Properties used to state the zero-guard claim about ratio columns. -/

/-- What the claim asserts of a `np.where(den > 0, num/den, 0)` ratio
value: the quotient when the denominator is a positive rational, exactly 0
when it is a non-positive rational, and exactly 0 as well when it is NaN or
negative infinity (`den > 0` is False for NaN in numpy, so the guard takes
the 0 branch; in the exact model the quotient of rationals is always
finite). -/
def guardedOK (num den res : FV) : Prop :=
  (∀ x d : ℚ, num = .q x → den = .q d →
    (0 < d → res = .q (x / d)) ∧ (d ≤ 0 → res = .q 0)) ∧
  (den.isNan = true → res = .q 0) ∧
  (den = .ninf → res = .q 0)

/-- What a `replace([inf, -inf], 0)`-guarded plain division actually
satisfies: the quotient for a nonzero denominator, 0 when the denominator
is 0 and the numerator is not (the infinity is replaced), but NaN when both
numerator and denominator are 0 (0/0 is NaN and `replace` does not touch
NaN); a NaN numerator or denominator likewise propagates to NaN. -/
def dailyOK (num den res : FV) : Prop :=
  (∀ x d : ℚ, num = .q x → den = .q d →
    (d ≠ 0 → res = .q (x / d)) ∧
    (d = 0 → x ≠ 0 → res = .q 0) ∧
    (d = 0 → x = 0 → res = .nan)) ∧
  (num.isNan = true → res = .nan) ∧
  (den.isNan = true → res = .nan)

/-- The invariant that column `c` of a frame holds `G` of columns `n` and
`d`, row by row. -/
def colExpr (f : Frame) (c n d : String) (G : FV → FV → FV) : Prop :=
  ∀ r ∈ f.rows, r.get c = G (r.get n) (r.get d)

/-! Infrastructure lemmas. -/

theorem cellLookup_replace_self (l : List (String × FV)) (c : String) (v : FV)
    (h : (cellLookup c l).isSome = true) :
    cellLookup c (l.map (fun p => if p.1 = c then (c, v) else p)) = some v := by
  induction l with
  | nil => simp [cellLookup] at h
  | cons a t ih =>
    obtain ⟨k, b⟩ := a
    by_cases hac : k = c
    · subst hac
      simp [cellLookup]
    · simp only [cellLookup, hac, if_false] at h
      simp only [List.map_cons, cellLookup, hac, if_false]
      exact ih h

theorem cellLookup_replace_other (l : List (String × FV)) (c c' : String) (v : FV)
    (h : c' ≠ c) :
    cellLookup c' (l.map (fun p => if p.1 = c then (c, v) else p)) = cellLookup c' l := by
  induction l with
  | nil => simp [cellLookup]
  | cons a t ih =>
    obtain ⟨k, b⟩ := a
    by_cases hac : k = c
    · subst hac
      rw [List.map_cons,
        show (if ((k, b) : String × FV).1 = k then (k, v) else (k, b)) = (k, v) by simp]
      simp only [cellLookup, Ne.symm h, if_false]
      exact ih
    · simp only [List.map_cons, cellLookup, hac, if_false]
      by_cases hax : k = c' <;> simp [hax, ih]

theorem cellLookup_append_self (l : List (String × FV)) (c : String) (v : FV)
    (h : cellLookup c l = none) :
    cellLookup c (l ++ [(c, v)]) = some v := by
  induction l with
  | nil => simp [cellLookup]
  | cons a t ih =>
    obtain ⟨k, b⟩ := a
    by_cases hac : k = c
    · simp only [cellLookup, hac, if_true] at h
      exact Option.noConfusion h
    · simp only [cellLookup, List.cons_append, hac, if_false] at h ⊢
      exact ih h

theorem cellLookup_append_other (l : List (String × FV)) (c c' : String) (v : FV)
    (h : c' ≠ c) :
    cellLookup c' (l ++ [(c, v)]) = cellLookup c' l := by
  induction l with
  | nil => simp [cellLookup, Ne.symm h]
  | cons a t ih =>
    obtain ⟨k, b⟩ := a
    simp only [cellLookup, List.cons_append]
    by_cases hax : k = c' <;> simp [hax, ih]

theorem Row.get_set_self (r : Row) (c : String) (v : FV) :
    (r.set c v).get c = v := by
  unfold Row.set Row.get
  cases hl : cellLookup c r.cells with
  | some w =>
    rw [if_pos (by simp [hl])]
    show (cellLookup c (r.cells.map (fun p => if p.1 = c then (c, v) else p))).getD .nan = v
    rw [cellLookup_replace_self r.cells c v (by simp [hl])]
    rfl
  | none =>
    rw [if_neg (by simp [hl])]
    show (cellLookup c (r.cells ++ [(c, v)])).getD .nan = v
    rw [cellLookup_append_self r.cells c v hl]
    rfl

theorem Row.get_set_other (r : Row) (c c' : String) (v : FV) (h : c' ≠ c) :
    (r.set c v).get c' = r.get c' := by
  unfold Row.set Row.get
  cases hl : cellLookup c r.cells with
  | some w =>
    rw [if_pos (by simp [hl])]
    show (cellLookup c' (r.cells.map (fun p => if p.1 = c then (c, v) else p))).getD .nan =
      (cellLookup c' r.cells).getD .nan
    rw [cellLookup_replace_other r.cells c c' v h]
  | none =>
    rw [if_neg (by simp [hl])]
    show (cellLookup c' (r.cells ++ [(c, v)])).getD .nan = (cellLookup c' r.cells).getD .nan
    rw [cellLookup_append_other r.cells c c' v h]

theorem Row.date_set (r : Row) (c : String) (v : FV) :
    (r.set c v).date = r.date := by
  unfold Row.set
  cases hl : cellLookup c r.cells with
  | some w => rw [if_pos (by simp [hl])]
  | none => rw [if_neg (by simp [hl])]

theorem mem_rows_setCol {f : Frame} {c : String} {g : Row → FV} {r' : Row}
    (h : r' ∈ (f.setCol c g).rows) :
    ∃ r ∈ f.rows, r' = r.set c (g r) := by
  simp only [Frame.setCol, List.mem_map] at h
  obtain ⟨r, hr, he⟩ := h
  exact ⟨r, hr, he.symm⟩

theorem mem_rows_setColVals {f : Frame} {c : String} {vs : List FV} {r' : Row}
    (h : r' ∈ (f.setColVals c vs).rows) :
    ∃ r v, r ∈ f.rows ∧ r' = r.set c v := by
  simp only [Frame.setColVals, List.mem_map] at h
  obtain ⟨⟨r, v⟩, hp, he⟩ := h
  exact ⟨r, v, (List.of_mem_zip hp).1, he.symm⟩

theorem mem_insertByDate {x r : Row} {l : List Row} :
    x ∈ insertByDate r l ↔ x = r ∨ x ∈ l := by
  induction l with
  | nil => simp [insertByDate]
  | cons a t ih =>
    unfold insertByDate
    by_cases h : r.date ≤ a.date <;> simp [h, ih] <;> tauto

theorem mem_sortRowsByDate {x : Row} {l : List Row} :
    x ∈ sortRowsByDate l ↔ x ∈ l := by
  induction l with
  | nil => simp [sortRowsByDate]
  | cons a t ih => simp [sortRowsByDate, mem_insertByDate, ih]

theorem length_insertByDate (r : Row) (l : List Row) :
    (insertByDate r l).length = l.length + 1 := by
  induction l with
  | nil => simp [insertByDate]
  | cons a t ih =>
    unfold insertByDate
    by_cases h : r.date ≤ a.date <;> simp [h, ih]

theorem length_sortRowsByDate (l : List Row) :
    (sortRowsByDate l).length = l.length := by
  induction l with
  | nil => rfl
  | cons a t ih => simp [sortRowsByDate, length_insertByDate, ih]

theorem length_rows_setCol (f : Frame) (c : String) (g : Row → FV) :
    (f.setCol c g).rows.length = f.rows.length := by
  simp [Frame.setCol]

theorem length_rows_fillZero (f : Frame) :
    (fillZero f).rows.length = f.rows.length := by
  simp [fillZero]

theorem length_rows_clipCols (cs : List String) (f : Frame) :
    (clipCols cs f).rows.length = f.rows.length := by
  induction cs generalizing f with
  | nil => rfl
  | cons c t ih =>
    unfold clipCols
    by_cases h : f.hasCol c <;> simp [h, ih]

theorem length_rows_addCalculatedRoas (f : Frame) :
    (addCalculatedRoas f).rows.length = f.rows.length := by
  simp [addCalculatedRoas, length_rows_setCol]

theorem length_rows_outlierStep (c : String) (f : Frame) :
    (outlierStep c f).rows.length ≤ f.rows.length := by
  unfold outlierStep
  by_cases h : f.hasCol c <;> simp [h, List.length_filter_le]

theorem length_rows_outlierSteps (cs : List String) (f : Frame) :
    (outlierSteps cs f).rows.length ≤ f.rows.length := by
  induction cs generalizing f with
  | nil => exact Nat.le_refl _
  | cons c t ih => exact Nat.le_trans (ih (outlierStep c f)) (length_rows_outlierStep c f)

theorem hasCol_setCol_of (f : Frame) (c x : String) (g : Row → FV)
    (h : f.hasCol x = true) : (f.setCol c g).hasCol x = true := by
  have hx : x ∈ f.cols := by simpa [Frame.hasCol] using h
  unfold Frame.setCol Frame.hasCol
  by_cases hmc : c ∈ f.cols <;> simp [hmc, Frame.hasCol, List.mem_append, hx]

theorem hasCol_setCol_other (f : Frame) (c x : String) (g : Row → FV)
    (h : x ≠ c) : (f.setCol c g).hasCol x = f.hasCol x := by
  unfold Frame.setCol Frame.hasCol
  by_cases hmc : c ∈ f.cols <;> simp [hmc, Frame.hasCol, List.mem_append, h]

theorem foldl_fsum_q (xs : List ℚ) (a : ℚ) :
    List.foldl (fun a v => if v.isNan then a else FV.add a v) (FV.q a) (xs.map FV.q) =
      FV.q (a + xs.sum) := by
  induction xs generalizing a with
  | nil => simp
  | cons x t ih =>
    rw [List.map_cons, List.foldl_cons, List.sum_cons]
    show List.foldl (fun a v => if v.isNan then a else FV.add a v) (FV.q (a + x))
      (t.map FV.q) = FV.q (a + (x + t.sum))
    rw [ih, add_assoc]

theorem fsum_map_q (xs : List ℚ) : fsum (xs.map FV.q) = FV.q xs.sum := by
  unfold fsum
  rw [foldl_fsum_q xs 0, zero_add]

theorem fcount_map_q (xs : List ℚ) : fcount (xs.map FV.q) = xs.length := by
  unfold fcount
  induction xs with
  | nil => rfl
  | cons x t ih => simpa [FV.isNan] using ih

theorem fmean_map_q (xs : List ℚ) (h : xs ≠ []) :
    fmean (xs.map FV.q) = FV.q (xs.sum / xs.length) := by
  unfold fmean
  rw [fcount_map_q, fsum_map_q]
  have hlen : xs.length ≠ 0 := by simpa using h
  simp only [hlen, if_false, FV.div]
  rw [if_neg (by exact_mod_cast hlen)]

theorem length_rows_cleanPrep (df : Frame) :
    (cleanPrep df).rows.length = df.rows.length := by
  rw [cleanPrep, length_rows_addCalculatedRoas, clipFinancial, length_rows_clipCols,
    length_rows_fillZero]

theorem validate_mut_ok_inv (df : Frame) (p : Frame × Frame)
    (h : validate_and_clean_mut df = Except.ok p) :
    p = (cleanPrep df, outlierPass (cleanPrep df)) := by
  unfold validate_and_clean_mut at h
  split at h
  · exact (Except.ok.inj h).symm
  · exact Except.noConfusion h

theorem validate_ok_inv (df r : Frame)
    (h : validate_and_clean_data df = Except.ok r) :
    r = outlierPass (cleanPrep df) := by
  unfold validate_and_clean_data at h
  cases hm : validate_and_clean_mut df with
  | error e =>
    rw [hm] at h
    exact Except.noConfusion h
  | ok p =>
    obtain ⟨p1, p2⟩ := p
    rw [hm] at h
    simp only [Except.map] at h
    have h1 := Except.ok.inj h
    have h2 := validate_mut_ok_inv df (p1, p2) hm
    rw [Prod.mk.injEq] at h2
    rw [← h1]
    exact h2.2

/-- C6: for every input table on which `validate_and_clean_data` returns, the
returned table has at most as many rows as the input table: the zero-fill,
the clipping and the added column keep every row, and the outlier filters
only remove rows. -/
theorem C6_clean_never_grows (df r : Frame)
    (h : validate_and_clean_data df = Except.ok r) :
    r.rows.length ≤ df.rows.length := by
  rw [validate_ok_inv df r h]
  calc (outlierPass (cleanPrep df)).rows.length
      ≤ (cleanPrep df).rows.length := length_rows_outlierSteps _ _
    _ = df.rows.length := length_rows_cleanPrep df

/-- Witness for C6 at a concrete two-row table. -/
theorem C6_clean_never_grows_witness :
    validate_and_clean_data dfC6w = Except.ok (okFrame (validate_and_clean_data dfC6w)) ∧
      (okFrame (validate_and_clean_data dfC6w)).rows.length ≤ dfC6w.rows.length := by
  have hok : validate_and_clean_data dfC6w = Except.ok (okFrame (validate_and_clean_data dfC6w)) := by
    simp [validate_and_clean_data, validate_and_clean_mut, cleanPrep, fillZero, clipFinancial,
      clipCols, addCalculatedRoas, outlierPass, outlierSteps, outlierStep, outlierColumns,
      financialColumns, Frame.hasCol, Frame.setCol, Frame.col, Row.set, Row.get,
      FV.zeroIfNan, FV.clip0, FV.lt, FV.div, FV.add, FV.isNan, okFrame, dfC6w,
      cellLookup, Except.map]
  exact ⟨hok, C6_clean_never_grows dfC6w _ hok⟩

theorem allFiniteFV_map_q (xs : List ℚ) : allFiniteFV (xs.map FV.q) = true := by
  simp [allFiniteFV, List.all_map, Function.comp, FV.isFin]

theorem map_toQ_map_q (xs : List ℚ) : (xs.map FV.q).map FV.toQ = xs := by
  rw [List.map_map]
  have : FV.toQ ∘ FV.q = id := by
    funext x
    rfl
  rw [this, List.map_id]

theorem foldl_npSum_q (xs : List ℚ) (a : ℚ) :
    List.foldl FV.add (FV.q a) (xs.map FV.q) = FV.q (a + xs.sum) := by
  induction xs generalizing a with
  | nil => simp
  | cons x t ih =>
    rw [List.map_cons, List.foldl_cons, List.sum_cons]
    show List.foldl FV.add (FV.add (FV.q a) (FV.q x)) (t.map FV.q) = FV.q (a + (x + t.sum))
    rw [show FV.add (FV.q a) (FV.q x) = FV.q (a + x) from rfl, ih, add_assoc]

theorem npMeanFV_map_q (xs : List ℚ) (h : xs ≠ []) :
    npMeanFV (xs.map FV.q) = FV.q (xs.sum / xs.length) := by
  unfold npMeanFV npSumFV
  rw [foldl_npSum_q, zero_add, List.length_map]
  have hlen : (xs.length : ℚ) ≠ 0 := by
    exact_mod_cast (by simpa using h : xs.length ≠ 0)
  simp [FV.div, hlen]

theorem getLastD_map_q (xs : List ℚ) :
    (xs.map FV.q).getLastD (.q 0) = .q (xs.getLastD 0) := by
  induction xs with
  | nil => rfl
  | cons x t ih =>
    cases t with
    | nil => rfl
    | cons y u => simpa using ih

theorem headD_map_q (xs : List ℚ) :
    (xs.map FV.q).headD (.q 0) = .q (xs.headD 0) := by
  cases xs <;> rfl

theorem classifyTrend_q (b m : ℚ) :
    classifyTrend (FV.q b) (FV.q m) =
      (if |b| < 1 / 100 * m then "stable"
       else if 0 < b then "increasing" else "decreasing", FV.q b) := by
  unfold classifyTrend
  simp only [FV.abs, FV.mul, FV.lt, decide_eq_true_eq]
  split_ifs <;> rfl

theorem classifyTrend_cases (a b : FV) :
    (classifyTrend a b).1 = "increasing" ∨ (classifyTrend a b).1 = "decreasing" ∨
      (classifyTrend a b).1 = "stable" := by
  unfold classifyTrend
  split_ifs <;> simp

/-- C7: the trend classifier returns ("stable", 0) on series shorter than
2, and otherwise classifies the slope (the least-squares coefficient
against the row index with sklearn, the fallback (last - first) / length
without) as stable when its absolute value is below 0.01 times the series
mean, else by its sign. -/
theorem C7_trend_classification :
    (∀ (sk : Bool) (s : List FV), s.length < 2 →
      calculate_trend_direction sk s = ("stable", FV.q 0)) ∧
    (∀ (sk : Bool) (xs : List ℚ), 2 ≤ xs.length →
      calculate_trend_direction sk (xs.map FV.q) =
        (if |(if sk then olsSlopeQ xs else (xs.getLastD 0 - xs.headD 0) / xs.length)| <
            1 / 100 * (xs.sum / xs.length) then "stable"
         else if 0 < (if sk then olsSlopeQ xs else (xs.getLastD 0 - xs.headD 0) / xs.length)
           then "increasing" else "decreasing",
         FV.q (if sk then olsSlopeQ xs else (xs.getLastD 0 - xs.headD 0) / xs.length))) := by
  constructor
  · intro sk s h
    unfold calculate_trend_direction
    rw [if_pos h]
  · intro sk xs h
    have hne : xs ≠ [] := by
      intro he
      rw [he] at h
      simp at h
    have hlen2 : ¬ (xs.map FV.q).length < 2 := by
      rw [List.length_map]
      omega
    unfold calculate_trend_direction
    rw [if_neg hlen2]
    cases sk with
    | true =>
      unfold trendCore
      rw [if_pos rfl, if_pos (allFiniteFV_map_q xs), map_toQ_map_q,
        npMeanFV_map_q xs hne]
      simp only [classifyTrend_q, if_true]
    | false =>
      unfold trendCore
      rw [if_neg (by simp)]
      rw [getLastD_map_q, headD_map_q]
      have hlq : ((xs.map FV.q).length : ℚ) ≠ 0 := by
        rw [List.length_map]
        exact_mod_cast (by simpa using hne : xs.length ≠ 0)
      have hdiv : FV.div (FV.sub (FV.q (xs.getLastD 0)) (FV.q (xs.headD 0)))
          (.q (xs.map FV.q).length) = FV.q ((xs.getLastD 0 - xs.headD 0) / xs.length) := by
        simp [FV.sub, FV.div, hlq, hne]
      rw [hdiv, npMeanFV_map_q xs hne]
      simp only [classifyTrend_q, if_false]
      simp

/-- Witness for C7: the sklearn branch on the series 1, 2, 3 classifies as
increasing with slope 1. -/
theorem C7_trend_classification_witness :
    2 ≤ ([(1 : ℚ), 2, 3]).length ∧
      calculate_trend_direction true ([(1 : ℚ), 2, 3].map FV.q) = ("increasing", FV.q 1) := by
  refine ⟨by norm_num, ?_⟩
  rw [C7_trend_classification.2 true [(1 : ℚ), 2, 3] (by norm_num)]
  norm_num [olsSlopeQ, List.range_succ]

/-- C10: the trend classifier is total, every direction it returns is one
of increasing, decreasing, stable, and an exception inside the slope
computation yields ("stable", 0). -/
theorem C10_trend_never_raises :
    (∀ (sk : Bool) (s : List FV),
      (calculate_trend_direction sk s).1 = "increasing" ∨
      (calculate_trend_direction sk s).1 = "decreasing" ∨
      (calculate_trend_direction sk s).1 = "stable") ∧
    (∀ (sk : Bool) (s : List FV), trendCore sk s = Except.error () →
      calculate_trend_direction sk s = ("stable", FV.q 0)) := by
  constructor
  · intro sk s
    unfold calculate_trend_direction
    by_cases hl : s.length < 2
    · rw [if_pos hl]
      tauto
    · rw [if_neg hl]
      cases he : trendCore sk s with
      | error e => tauto
      | ok r =>
        unfold trendCore at he
        cases sk with
        | true =>
          rw [if_pos rfl] at he
          by_cases hf : allFiniteFV s = true
          · rw [if_pos hf] at he
            injection he with he1
            rw [← he1]
            exact classifyTrend_cases _ _
          · rw [if_neg hf] at he
            exact Except.noConfusion he
        | false =>
          rw [if_neg (by simp)] at he
          injection he with he1
          rw [← he1]
          exact classifyTrend_cases _ _
  · intro sk s he
    unfold calculate_trend_direction
    by_cases hl : s.length < 2
    · rw [if_pos hl]
    · rw [if_neg hl, he]

/-- Witness for C10: a series containing NaN makes the sklearn fit raise,
and the classifier returns ("stable", 0). -/
theorem C10_trend_never_raises_witness :
    trendCore true [FV.nan, FV.q 0] = Except.error () ∧
      calculate_trend_direction true [FV.nan, FV.q 0] = ("stable", FV.q 0) := by
  have he : trendCore true [FV.nan, FV.q 0] = Except.error () := rfl
  exact ⟨he, C10_trend_never_raises.2 true [FV.nan, FV.q 0] he⟩

/-- C2: when the three platform spend columns sum to a positive total and
the revenue column sums to a positive total, the spend-based allocations of
`calculate_attribution_model` sum exactly to the total revenue (exact
equality, hence within any relative tolerance), and so do the three linear
allocations `total_revenue / 3`. -/
theorem C2_attribution_sum_law (df : Frame) (out : AttributionModels) (a b c r : ℚ)
    (h : calculate_attribution_model df = Except.ok out)
    (ha : fsum (df.col "facebook_spend") = .q a)
    (hb : fsum (df.col "google_spend") = .q b)
    (hc : fsum (df.col "tiktok_spend") = .q c)
    (hr : fsum (df.col (if df.hasCol "total_revenue" then "total_revenue"
      else "total revenue")) = .q r)
    (hpos : 0 < a + b + c) (hrpos : 0 < r) :
    FV.add (FV.add out.spend_based.facebook out.spend_based.google)
      out.spend_based.tiktok = .q r ∧
    FV.add (FV.add out.linear.facebook out.linear.google) out.linear.tiktok = .q r := by
  obtain ⟨⟨lcF, lcG, lcT⟩, ⟨sbF, sbG, sbT⟩, ⟨linF, linG, linT⟩⟩ := out
  simp only [calculate_attribution_model] at h
  set rc := (if df.hasCol "total_revenue" then "total_revenue" else "total revenue") with hrc
  split at h
  case isFalse => exact Except.noConfusion h
  case isTrue hreq =>
    rw [ha, hb, hc, hr] at h
    have hs0 : a + b + c ≠ 0 := ne_of_gt hpos
    have hadd : FV.add (FV.add (.q a) (.q b)) (.q c) = .q (a + b + c) := by
      simp [FV.add, add_assoc]
    have hcond : FV.lt (.q 0) (FV.add (FV.add (.q a) (.q b)) (.q c)) = true := by
      rw [hadd]
      simp [FV.lt, hpos]
    rw [hadd] at h hcond
    simp only [Except.ok.injEq, AttributionModels.mk.injEq, Alloc.mk.injEq, hcond,
      if_true] at h
    obtain ⟨⟨hlc1, hlc2, hlc3⟩, ⟨hsb1, hsb2, hsb3⟩, ⟨hlin1, hlin2, hlin3⟩⟩ := h
    constructor
    · rw [← hsb1, ← hsb2, ← hsb3]
      simp only [FV.div, FV.mul, FV.add, hs0, if_false]
      congr 1
      field_simp
      ring

    · rw [← hlin1, ← hlin2, ← hlin3]
      simp only [FV.div]
      rw [if_neg (by norm_num : ¬(3 : ℚ) = 0)]
      simp only [FV.add]
      congr 1
      ring

set_option maxHeartbeats 2000000 in
/-- Witness for C2 at a concrete two-day table: platform spends sum to
120/80/0, revenue to 1000, and both models sum to 1000.  The expected
model output is spelled out: last-click 300/150/0, spend-based 600/400/0,
linear 1000/3 each. -/
theorem C2_attribution_sum_law_witness :
    calculate_attribution_model dfC2w = Except.ok
      ⟨⟨.q 300, .q 150, .q 0⟩, ⟨.q 600, .q 400, .q 0⟩,
       ⟨.q (1000 / 3), .q (1000 / 3), .q (1000 / 3)⟩⟩ ∧
    FV.add (FV.add (FV.q 600) (FV.q 400)) (FV.q 0) = .q 1000 ∧
    FV.add (FV.add (FV.q (1000 / 3)) (FV.q (1000 / 3))) (FV.q (1000 / 3)) = .q 1000 := by
  have h : calculate_attribution_model dfC2w = Except.ok
      ⟨⟨.q 300, .q 150, .q 0⟩, ⟨.q 600, .q 400, .q 0⟩,
       ⟨.q (1000 / 3), .q (1000 / 3), .q (1000 / 3)⟩⟩ := by
    simp [calculate_attribution_model, dfC2w, Frame.hasCol, Frame.col,
      Row.get, fsum, FV.add, FV.isNan, FV.lt, FV.div, FV.mul, cellLookup]
    norm_num
  have ha : fsum (dfC2w.col "facebook_spend") = FV.q 120 := by
    simp [dfC2w, Frame.col, Row.get, fsum, FV.add, FV.isNan, cellLookup]
    norm_num
  have hb : fsum (dfC2w.col "google_spend") = FV.q 80 := by
    simp [dfC2w, Frame.col, Row.get, fsum, FV.add, FV.isNan, cellLookup]
    norm_num
  have hc : fsum (dfC2w.col "tiktok_spend") = FV.q 0 := by
    simp [dfC2w, Frame.col, Row.get, fsum, FV.add, FV.isNan, cellLookup]
  have hr : fsum (dfC2w.col (if dfC2w.hasCol "total_revenue" then "total_revenue"
      else "total revenue")) = FV.q 1000 := by
    simp [dfC2w, Frame.hasCol, Frame.col, Row.get, fsum, FV.add, FV.isNan, cellLookup]
    norm_num
  have hmain := C2_attribution_sum_law dfC2w
    ⟨⟨.q 300, .q 150, .q 0⟩, ⟨.q 600, .q 400, .q 0⟩,
     ⟨.q (1000 / 3), .q (1000 / 3), .q (1000 / 3)⟩⟩
    120 80 0 1000 h ha hb hc hr (by norm_num) (by norm_num)
  exact ⟨h, hmain.1, hmain.2⟩

theorem outlierKeep_single (v w : FV) : outlierKeep [v] w = false := by
  have hvar : fvarSample [v] = FV.nan := by
    unfold fvarSample nonNanVals
    cases v <;> simp [FV.isNan]
  unfold outlierKeep
  rw [hvar]

theorem cols_outlierStep (c : String) (f : Frame) : (outlierStep c f).cols = f.cols := by
  unfold outlierStep
  split <;> rfl

theorem rows_outlierStep_nil (c : String) (f : Frame) (h : f.rows = []) :
    (outlierStep c f).rows = [] := by
  unfold outlierStep
  split <;> simp [h]

theorem rows_outlierSteps_nil (cs : List String) (f : Frame) (h : f.rows = []) :
    (outlierSteps cs f).rows = [] := by
  induction cs generalizing f with
  | nil => exact h
  | cons c t ih => exact ih _ (rows_outlierStep_nil c f h)

theorem outlierStep_single (c : String) (f : Frame) (r : Row) (h : f.rows = [r])
    (hc : f.hasCol c = true) : (outlierStep c f).rows = [] := by
  unfold outlierStep
  rw [if_pos hc]
  show (f.rows.filter (fun x => outlierKeep (f.col c) (x.get c))) = []
  rw [h]
  simp only [Frame.col, h, List.map_cons, List.map_nil]
  simp [outlierKeep_single]

theorem outlierStep_absent (c : String) (f : Frame) (hc : ¬ f.hasCol c = true) :
    outlierStep c f = f := by
  unfold outlierStep
  rw [if_neg hc]

theorem cols_fillZero (f : Frame) : (fillZero f).cols = f.cols := rfl

theorem cols_clipCols (cs : List String) (f : Frame) : (clipCols cs f).cols = f.cols := by
  induction cs generalizing f with
  | nil => rfl
  | cons c t ih =>
    unfold clipCols
    by_cases h : f.hasCol c <;> simp [h, ih]

theorem hasCol_cleanPrep (df : Frame) (c : String) (h : df.hasCol c = true) :
    (cleanPrep df).hasCol c = true := by
  rw [cleanPrep, addCalculatedRoas]
  apply hasCol_setCol_of
  unfold Frame.hasCol at *
  rw [clipFinancial, cols_clipCols, cols_fillZero]
  exact h

/-- C9: a one-row table carrying at least one of the columns
marketing_roas, total_revenue, orders is returned empty by
`validate_and_clean_data`: the pandas sample standard deviation of a single
value is NaN, the keep comparison against NaN is false, and the sole row is
dropped. -/
theorem C9_single_row_dropped (df out : Frame)
    (h1 : df.rows.length = 1)
    (h2 : df.hasCol "marketing_roas" = true ∨ df.hasCol "total_revenue" = true ∨
      df.hasCol "orders" = true)
    (h : validate_and_clean_data df = Except.ok out) :
    out.rows = [] := by
  rw [validate_ok_inv df out h]
  have hlen1 : (cleanPrep df).rows.length = 1 := by
    rw [length_rows_cleanPrep]
    exact h1
  obtain ⟨r0, hr0⟩ := List.length_eq_one.mp hlen1
  rw [outlierPass, outlierColumns]
  show (outlierSteps ["marketing_roas", "total_revenue", "orders"] (cleanPrep df)).rows = []
  simp only [outlierSteps]
  by_cases hm : (cleanPrep df).hasCol "marketing_roas" = true
  · exact rows_outlierStep_nil _ _
      (rows_outlierStep_nil _ _ (outlierStep_single _ (cleanPrep df) r0 hr0 hm))
  · rw [outlierStep_absent _ (cleanPrep df) hm]
    by_cases ht : (cleanPrep df).hasCol "total_revenue" = true
    · exact rows_outlierStep_nil _ _ (outlierStep_single _ (cleanPrep df) r0 hr0 ht)
    · rw [outlierStep_absent _ (cleanPrep df) ht]
      have ho : (cleanPrep df).hasCol "orders" = true := by
        rcases h2 with h2 | h2 | h2
        · exact absurd (hasCol_cleanPrep df _ h2) hm
        · exact absurd (hasCol_cleanPrep df _ h2) ht
        · exact hasCol_cleanPrep df _ h2
      exact outlierStep_single _ (cleanPrep df) r0 hr0 ho

set_option maxHeartbeats 1000000 in
/-- Witness for C9: the concrete one-row table with a total_revenue column
is cleaned to the empty table. -/
theorem C9_single_row_dropped_witness :
    validate_and_clean_data dfC9w = Except.ok
      ⟨["spend", "attributed_revenue", "total_revenue", "calculated_marketing_roas"], []⟩ ∧
      dfC9w.rows.length = 1 ∧
      (⟨["spend", "attributed_revenue", "total_revenue", "calculated_marketing_roas"],
        []⟩ : Frame).rows = [] := by
  have hok : validate_and_clean_data dfC9w = Except.ok
      ⟨["spend", "attributed_revenue", "total_revenue", "calculated_marketing_roas"],
       []⟩ := by
    simp [validate_and_clean_data, validate_and_clean_mut, cleanPrep, fillZero, clipFinancial,
      clipCols, addCalculatedRoas, outlierPass, outlierSteps, outlierStep, outlierColumns,
      financialColumns, Frame.hasCol, Frame.setCol, Frame.col, Row.set, Row.get,
      FV.zeroIfNan, FV.clip0, FV.lt, FV.div, FV.add, FV.isNan, dfC9w,
      cellLookup, Except.map, outlierKeep, fvarSample, nonNanVals, fmean, fcount, fsum]
  exact ⟨hok, by simp [dfC9w],
    C9_single_row_dropped dfC9w _ (by simp [dfC9w]) (by simp [dfC9w, Frame.hasCol]) hok⟩

theorem nonNanVals_map_q (xs : List ℚ) : nonNanVals (xs.map FV.q) = xs.map FV.q := by
  unfold nonNanVals
  induction xs with
  | nil => rfl
  | cons x t ih => simpa [FV.isNan] using ih

/-- Counterexample for C5 as stated: on the eleven-day table `dfC5x`
(revenues nine 0s, one 1, one 10) the code's filter, which uses the pandas
sample standard deviation, keeps all 11 rows (the extreme row deviates by
exactly 3 sample standard deviations), while the claim's population
standard deviation filter drops the extreme row and returns 10 rows. -/
theorem C5_population_std_counterexample :
    (validate_and_clean_data dfC5x).map (fun f => f.rows.length) = Except.ok 11 ∧
    (validate_and_clean_pop dfC5x).map (fun f => f.rows.length) = Except.ok 10 := by
  constructor
  · simp [validate_and_clean_data, validate_and_clean_mut, cleanPrep, fillZero,
      clipFinancial, clipCols, addCalculatedRoas, outlierPass, outlierSteps, outlierStep,
      outlierColumns, financialColumns, Frame.hasCol, Frame.setCol, Frame.col, Row.set,
      Row.get, FV.zeroIfNan, FV.clip0, FV.lt, FV.div, FV.add, FV.isNan, FV.isFin, dfC5x,
      cellLookup, Except.map, outlierKeep, fvarSample, nonNanVals, allFiniteFV, sampleVarQ,
      FV.toQ, fmean, fcount, fsum, List.filter_cons]
    norm_num
  · simp [validate_and_clean_pop, cleanPrep, fillZero,
      clipFinancial, clipCols, addCalculatedRoas, outlierStepsPop, outlierStepPop,
      outlierColumns, financialColumns, Frame.hasCol, Frame.setCol, Frame.col, Row.set,
      Row.get, FV.zeroIfNan, FV.clip0, FV.lt, FV.div, FV.add, FV.isNan, FV.isFin, dfC5x,
      cellLookup, Except.map, outlierKeepPop, fvarPop, nonNanVals, allFiniteFV,
      populationVarQ, FV.toQ, fmean, fcount, fsum, List.filter_cons]
    norm_num

/-- C5 (amended): the cleaning step applies the three sequential outlier
filters to the progressively shrunk table, but with the pandas SAMPLE
standard deviation (ddof = 1), not the population one: (1) the returned
table is exactly the chain of the three filters over the prepared table;
(2) on a finite column of length at least 2 a value is kept exactly when
its squared deviation from the mean is at most 9 times the sample
variance; (3) that squared comparison is equivalent to
`abs(value - mean) <= 3 * stddev` for any nonnegative stddev whose square
is the variance; (4) a single-value column keeps nothing (its sample
standard deviation is NaN). -/
theorem C5_outlier_filter_sample_std :
    (∀ df r, validate_and_clean_data df = Except.ok r →
      r = outlierStep "orders" (outlierStep "total_revenue"
        (outlierStep "marketing_roas" (cleanPrep df)))) ∧
    (∀ (xs : List ℚ) (v : ℚ), 2 ≤ xs.length →
      (outlierKeep (xs.map FV.q) (.q v) = true ↔
        (v - xs.sum / xs.length) ^ 2 ≤
          9 * (((xs.map (fun x => (x - xs.sum / xs.length) ^ 2)).sum) / (xs.length - 1)))) ∧
    (∀ (d s : ℚ), 0 ≤ s → ((d ^ 2 ≤ 9 * s ^ 2) ↔ |d| ≤ 3 * s)) ∧
    (∀ (x : ℚ) (v : FV), outlierKeep [.q x] v = false) := by
  refine ⟨?_, ?_, ?_, ?_⟩
  · intro df r h
    rw [validate_ok_inv df r h]
    simp only [outlierPass, outlierColumns, outlierSteps]
  · intro xs v hlen
    have hne : xs ≠ [] := by
      intro he
      rw [he] at hlen
      simp at hlen
    have hvar : fvarSample (xs.map FV.q) = .q (sampleVarQ xs) := by
      unfold fvarSample
      rw [nonNanVals_map_q]
      simp only [List.length_map, map_toQ_map_q, allFiniteFV_map_q, if_true]
      rw [if_neg (by omega : ¬ xs.length < 2)]
    unfold outlierKeep
    rw [hvar, fmean_map_q xs hne]
    rw [sampleVarQ]
    simp [decide_eq_true_eq]
  · intro d s hs
    constructor
    · intro hsq
      by_contra hcon
      push_neg at hcon
      nlinarith [sq_abs d, abs_nonneg d]
    · intro habs
      nlinarith [sq_abs d, abs_nonneg d]
  · intro x v
    exact outlierKeep_single (.q x) v

/-- Witness for C5 (amended) at the column 0, 2 and value 2 (kept: squared
deviation 1 against 9 times sample variance 2), and at deviation 2 against
standard deviation 1. -/
theorem C5_outlier_filter_sample_std_witness :
    (2 ≤ ([(0 : ℚ), 2]).length ∧
      (outlierKeep ([(0 : ℚ), 2].map FV.q) (.q 2) = true ↔
        ((2 : ℚ) - [(0 : ℚ), 2].sum / ([(0 : ℚ), 2].length)) ^ 2 ≤
          9 * ((([(0 : ℚ), 2].map
            (fun x => (x - [(0 : ℚ), 2].sum / ([(0 : ℚ), 2].length)) ^ 2)).sum) /
              (([(0 : ℚ), 2].length) - 1)))) ∧
    ((0 : ℚ) ≤ 1 ∧ (((2 : ℚ) ^ 2 ≤ 9 * 1 ^ 2) ↔ |(2 : ℚ)| ≤ 3 * 1)) := by
  exact ⟨⟨by norm_num, C5_outlier_filter_sample_std.2.1 [(0 : ℚ), 2] 2 (by norm_num)⟩,
    ⟨by norm_num, C5_outlier_filter_sample_std.2.2.1 2 1 (by norm_num)⟩⟩

theorem hasCol_setCol_self (f : Frame) (c : String) (g : Row → FV) :
    (f.setCol c g).hasCol c = true := by
  unfold Frame.setCol Frame.hasCol
  by_cases hmc : c ∈ f.cols <;> simp [hmc, List.mem_append]

/-- Counterexample for C8 as stated: on the clean one-row table `dfC8x`
(no NaN, no negatives) the caller's object still comes out of
`validate_and_clean_data` changed: it has gained the
`calculated_marketing_roas` column, so it differs from the table passed
in. -/
theorem C8_no_mutation_counterexample :
    (validate_and_clean_mut dfC8x).map Prod.fst = Except.ok
      (⟨["spend", "attributed_revenue", "calculated_marketing_roas"],
        [⟨1, [("spend", .q 5), ("attributed_revenue", .q 5),
          ("calculated_marketing_roas", .q 1)]⟩]⟩ : Frame) ∧
    (⟨["spend", "attributed_revenue", "calculated_marketing_roas"],
      [⟨1, [("spend", .q 5), ("attributed_revenue", .q 5),
        ("calculated_marketing_roas", .q 1)]⟩]⟩ : Frame) ≠ dfC8x := by
  constructor
  · simp [validate_and_clean_mut, cleanPrep, fillZero, clipFinancial, clipCols,
      addCalculatedRoas, outlierPass, outlierSteps, outlierStep, outlierColumns,
      financialColumns, Frame.hasCol, Frame.setCol, Frame.col, Row.set, Row.get,
      FV.zeroIfNan, FV.clip0, FV.lt, FV.div, FV.add, FV.isNan, dfC8x,
      cellLookup, Except.map]
  · intro h
    rw [Frame.mk.injEq] at h
    simp [dfC8x] at h

/-- C8 (amended): `validate_and_clean_data` DOES mutate the caller's table:
after the call the caller's object is exactly the zero-filled, clipped
table with the `calculated_marketing_roas` column added (`cleanPrep`), and
in particular it keeps every row — only the outlier row removal is
confined to the returned table, which is the filtered caller's object. -/
theorem C8_caller_table_mutated (df cv ret : Frame)
    (h : validate_and_clean_mut df = Except.ok (cv, ret)) :
    cv = addCalculatedRoas (clipFinancial (fillZero df)) ∧
    cv.rows.length = df.rows.length ∧
    cv.hasCol "calculated_marketing_roas" = true ∧
    ret = outlierPass cv := by
  have h2 := validate_mut_ok_inv df (cv, ret) h
  rw [Prod.mk.injEq] at h2
  obtain ⟨hcv, hret⟩ := h2
  refine ⟨hcv, ?_, ?_, ?_⟩
  · rw [hcv]
    exact length_rows_cleanPrep df
  · rw [hcv, cleanPrep, addCalculatedRoas]
    exact hasCol_setCol_self _ _ _
  · rw [hret, hcv]

/-- Witness for C8 (amended) at the concrete table `dfC8x`: the caller's
object gains the calculated column and keeps its row, and the returned
table equals the filtered caller's object. -/
theorem C8_caller_table_mutated_witness :
    validate_and_clean_mut dfC8x = Except.ok
      (⟨["spend", "attributed_revenue", "calculated_marketing_roas"],
        [⟨1, [("spend", .q 5), ("attributed_revenue", .q 5),
          ("calculated_marketing_roas", .q 1)]⟩]⟩,
       ⟨["spend", "attributed_revenue", "calculated_marketing_roas"],
        [⟨1, [("spend", .q 5), ("attributed_revenue", .q 5),
          ("calculated_marketing_roas", .q 1)]⟩]⟩) ∧
    (⟨["spend", "attributed_revenue", "calculated_marketing_roas"],
      [⟨1, [("spend", .q 5), ("attributed_revenue", .q 5),
        ("calculated_marketing_roas", .q 1)]⟩]⟩ : Frame).rows.length =
      dfC8x.rows.length ∧
    (⟨["spend", "attributed_revenue", "calculated_marketing_roas"],
      [⟨1, [("spend", .q 5), ("attributed_revenue", .q 5),
        ("calculated_marketing_roas", .q 1)]⟩]⟩ : Frame).hasCol
      "calculated_marketing_roas" = true := by
  have hok : validate_and_clean_mut dfC8x = Except.ok
      (⟨["spend", "attributed_revenue", "calculated_marketing_roas"],
        [⟨1, [("spend", .q 5), ("attributed_revenue", .q 5),
          ("calculated_marketing_roas", .q 1)]⟩]⟩,
       ⟨["spend", "attributed_revenue", "calculated_marketing_roas"],
        [⟨1, [("spend", .q 5), ("attributed_revenue", .q 5),
          ("calculated_marketing_roas", .q 1)]⟩]⟩) := by
    simp [validate_and_clean_mut, cleanPrep, fillZero, clipFinancial, clipCols,
      addCalculatedRoas, outlierPass, outlierSteps, outlierStep, outlierColumns,
      financialColumns, Frame.hasCol, Frame.setCol, Frame.col, Row.set, Row.get,
      FV.zeroIfNan, FV.clip0, FV.lt, FV.div, FV.add, FV.isNan, dfC8x,
      cellLookup, Except.map]
  have hm := C8_caller_table_mutated dfC8x _ _ hok
  exact ⟨hok, hm.2.1, hm.2.2.1⟩

/-- Counterexample for C4 as stated: on the two-day all-zero-revenue table
the second half's revenue sum (0) is exactly double the first half's (0),
yet the computed revenue growth is 0, not 100.0 (the zero-guard branch
wins). -/
theorem C4_doubling_counterexample :
    (calculate_kpis dfC4x).map (fun k => k.revenue_growth) = Except.ok (FV.q 0) ∧
    fsum (((sortRowsByDate dfC4x.rows).take 1).map (fun r => r.get "total_revenue")) =
      .q 0 ∧
    fsum (((sortRowsByDate dfC4x.rows).drop 1).map (fun r => r.get "total_revenue")) =
      .q (2 * 0) ∧
    FV.q 0 ≠ FV.q 100 := by
  refine ⟨?_, ?_, ?_, by simp⟩
  · simp [calculate_kpis, dfC4x, Frame.hasCol, Frame.col, Row.get, fsum, fmean, fcount,
      FV.add, FV.sub, FV.mul, FV.div, FV.lt, FV.isNan, cellLookup, Except.map,
      sortRowsByDate, insertByDate]
  · simp [dfC4x, sortRowsByDate, insertByDate, fsum, Row.get, cellLookup, FV.add, FV.isNan]
  · simp [dfC4x, sortRowsByDate, insertByDate, fsum, Row.get, cellLookup, FV.add, FV.isNan]

/-- C4 (amended): for every table on which `calculate_kpis` returns, the
growth metrics follow the protocol: sort by date, split at `len // 2` (the
first half gets the smaller share when the length is odd), revenue and
order growth are `(second - first) / first * 100` when the first-half sum
is positive and 0 otherwise (in particular also 0 when both halves sum to
0), and the ROAS and margin trends are the plain differences of the two
halves' means; the doubling consequence (second-half sum exactly double the
first-half sum gives growth 100.0) holds provided the first-half sum is
positive. -/
theorem C4_growth_protocol (df : Frame) (k : KPIs)
    (hne : df.rows ≠ []) (h : calculate_kpis df = Except.ok k) :
    (k.revenue_growth =
      if FV.lt (.q 0) (fsum (((sortRowsByDate df.rows).take
          ((sortRowsByDate df.rows).length / 2)).map (fun r =>
            r.get (if df.hasCol "total_revenue" then "total_revenue" else "total revenue"))))
      then FV.mul (FV.div (FV.sub
        (fsum (((sortRowsByDate df.rows).drop ((sortRowsByDate df.rows).length / 2)).map
          (fun r => r.get (if df.hasCol "total_revenue" then "total_revenue"
            else "total revenue"))))
        (fsum (((sortRowsByDate df.rows).take ((sortRowsByDate df.rows).length / 2)).map
          (fun r => r.get (if df.hasCol "total_revenue" then "total_revenue"
            else "total revenue")))))
        (fsum (((sortRowsByDate df.rows).take ((sortRowsByDate df.rows).length / 2)).map
          (fun r => r.get (if df.hasCol "total_revenue" then "total_revenue"
            else "total revenue"))))) (.q 100)
      else .q 0) ∧
    (k.order_growth =
      if FV.lt (.q 0) (fsum (((sortRowsByDate df.rows).take
          ((sortRowsByDate df.rows).length / 2)).map (fun r =>
            r.get (if df.hasCol "orders" then "orders" else "# of orders"))))
      then FV.mul (FV.div (FV.sub
        (fsum (((sortRowsByDate df.rows).drop ((sortRowsByDate df.rows).length / 2)).map
          (fun r => r.get (if df.hasCol "orders" then "orders" else "# of orders"))))
        (fsum (((sortRowsByDate df.rows).take ((sortRowsByDate df.rows).length / 2)).map
          (fun r => r.get (if df.hasCol "orders" then "orders" else "# of orders")))))
        (fsum (((sortRowsByDate df.rows).take ((sortRowsByDate df.rows).length / 2)).map
          (fun r => r.get (if df.hasCol "orders" then "orders" else "# of orders")))))
        (.q 100)
      else .q 0) ∧
    (k.roas_trend = FV.sub
      (fmean (((sortRowsByDate df.rows).drop ((sortRowsByDate df.rows).length / 2)).map
        (fun r => r.get "marketing_roas")))
      (fmean (((sortRowsByDate df.rows).take ((sortRowsByDate df.rows).length / 2)).map
        (fun r => r.get "marketing_roas")))) ∧
    (k.margin_trend = FV.sub
      (fmean (((sortRowsByDate df.rows).drop ((sortRowsByDate df.rows).length / 2)).map
        (fun r => r.get "profit_margin")))
      (fmean (((sortRowsByDate df.rows).take ((sortRowsByDate df.rows).length / 2)).map
        (fun r => r.get "profit_margin")))) ∧
    (∀ a : ℚ,
      fsum (((sortRowsByDate df.rows).take ((sortRowsByDate df.rows).length / 2)).map
        (fun r => r.get (if df.hasCol "total_revenue" then "total_revenue"
          else "total revenue"))) = .q a →
      fsum (((sortRowsByDate df.rows).drop ((sortRowsByDate df.rows).length / 2)).map
        (fun r => r.get (if df.hasCol "total_revenue" then "total_revenue"
          else "total revenue"))) = .q (2 * a) →
      0 < a → k.revenue_growth = .q 100) := by
  obtain ⟨ktr, kto, kts, ktn, kaov, kroas, kpm, kar, ktar, krg, kog, krt, kmt, kcac,
    kltv⟩ := k
  simp only [calculate_kpis] at h
  set rc := (if df.hasCol "total_revenue" then "total_revenue" else "total revenue")
    with hrc
  set oc := (if df.hasCol "orders" then "orders" else "# of orders") with hoc
  split at h
  case isFalse => exact Except.noConfusion h
  case isTrue hreq =>
    simp only [Except.ok.injEq, KPIs.mk.injEq] at h
    obtain ⟨h1, h2, h3, h4, h5, h6, h7, h8, h9, h10, h11, h12, h13, h14, h15⟩ := h
    refine ⟨h10.symm, h11.symm, h12.symm, h13.symm, ?_⟩
    intro a hfa hsa hpos
    rw [← h10, hfa, hsa]
    have hlt : FV.lt (.q 0) (.q a) = true := by
      simp [FV.lt, hpos]
    rw [if_pos hlt]
    simp only [FV.sub, FV.div]
    rw [show 2 * a - a = a by ring, if_neg (ne_of_gt hpos)]
    simp only [FV.mul]
    have : a / a * 100 = 100 := by
      field_simp
    rw [this]

/-- Witness for C4 (amended) at the table with revenues 100 then 200: the
second half doubles the first and the computed revenue growth is 100. -/
theorem C4_growth_protocol_witness :
    dfC4w.rows ≠ [] ∧
    calculate_kpis dfC4w = Except.ok
      ⟨.q 300, .q 3, .q 2, .q 2, .q 100, .q 1, .q 1, .q 1, .q 2, .q 100, .q 100,
       .q 0, .q 0, .q 1, .q 300⟩ ∧
    fsum (((sortRowsByDate dfC4w.rows).take ((sortRowsByDate dfC4w.rows).length / 2)).map
      (fun r => r.get (if dfC4w.hasCol "total_revenue" then "total_revenue"
        else "total revenue"))) = .q 100 ∧
    (⟨.q 300, .q 3, .q 2, .q 2, .q 100, .q 1, .q 1, .q 1, .q 2, .q 100, .q 100,
      .q 0, .q 0, .q 1, .q 300⟩ : KPIs).revenue_growth = .q 100 := by
  have hne : dfC4w.rows ≠ [] := by
    simp [dfC4w]
  have hok : calculate_kpis dfC4w = Except.ok
      ⟨.q 300, .q 3, .q 2, .q 2, .q 100, .q 1, .q 1, .q 1, .q 2, .q 100, .q 100,
       .q 0, .q 0, .q 1, .q 300⟩ := by
    simp [calculate_kpis, dfC4w, Frame.hasCol, Frame.col, Row.get, fsum, fmean, fcount,
      FV.add, FV.sub, FV.mul, FV.div, FV.lt, FV.isNan, cellLookup,
      sortRowsByDate, insertByDate]
    norm_num
  have hfa : fsum (((sortRowsByDate dfC4w.rows).take
      ((sortRowsByDate dfC4w.rows).length / 2)).map
      (fun r => r.get (if dfC4w.hasCol "total_revenue" then "total_revenue"
        else "total revenue"))) = .q 100 := by
    simp [dfC4w, Frame.hasCol, sortRowsByDate, insertByDate, fsum, Row.get, cellLookup,
      FV.add, FV.isNan]
  have hsa : fsum (((sortRowsByDate dfC4w.rows).drop
      ((sortRowsByDate dfC4w.rows).length / 2)).map
      (fun r => r.get (if dfC4w.hasCol "total_revenue" then "total_revenue"
        else "total revenue"))) = .q (2 * 100) := by
    simp [dfC4w, Frame.hasCol, sortRowsByDate, insertByDate, fsum, Row.get, cellLookup,
      FV.add, FV.isNan]
    norm_num
  exact ⟨hne, hok, hfa,
    (C4_growth_protocol dfC4w _ hne hok).2.2.2.2 100 hfa hsa (by norm_num)⟩

theorem find_none_of_no_platform (cols : List String) (p needle : String)
    (h : ∀ c ∈ cols, strHasLower c p = false) :
    cols.find? (fun c => strHasLower c p && strHasLower c needle) = none := by
  induction cols with
  | nil => rfl
  | cons c t ih =>
    have hc := h c (by simp)
    simp [List.find?, hc, ih (fun c' hc' => h c' (List.mem_cons_of_mem _ hc'))]

theorem smartMap_attrCol (cols : List String) (p : Platform) :
    (smart_column_finder cols).attrCol p =
      cols.find? (fun c => strHasLower c p.lowName && strHasLower c "revenue") := by
  cases p <;> rfl

theorem smartMap_spendCol (cols : List String) (p : Platform) :
    (smart_column_finder cols).spendCol p =
      cols.find? (fun c => strHasLower c p.lowName && strHasLower c "spend") := by
  cases p <;> rfl

/-- Counterexample for C3 as stated: on the table `dfC3x`, whose columns
never mention tiktok, the smart attribution computation succeeds but its
LINEAR model still assigns tiktok `total_revenue / 3 = 100`, not 0 (and
`calculate_attribution_model` raises instead of assigning 0). -/
theorem C3_missing_platform_counterexample :
    calculate_attribution_models_smart (fun n => List.replicate n (FV.q 1)) dfC3x
      (smart_column_finder dfC3x.cols) = Except.ok
        ⟨⟨.q 100, .q 50, .q 0⟩, ⟨.q 180, .q 120, .q 0⟩, ⟨.q 100, .q 50, .q 0⟩,
         ⟨.q 100, .q 100, .q 100⟩⟩ ∧
    (⟨⟨.q 100, .q 50, .q 0⟩, ⟨.q 180, .q 120, .q 0⟩, ⟨.q 100, .q 50, .q 0⟩,
      ⟨.q 100, .q 100, .q 100⟩⟩ : AttributionModels4).linear.tiktok = .q 100 ∧
    FV.q 100 ≠ FV.q 0 ∧
    calculate_attribution_model dfC3x = Except.error () := by
  have hm : smart_column_finder dfC3x.cols =
      ⟨some "total_revenue", some "facebook_attributed revenue",
       some "google_attributed revenue", none, some "facebook_spend",
       some "google_spend", none, none⟩ := by
    decide
  refine ⟨?_, rfl, by simp, ?_⟩
  · rw [hm]
    simp [calculate_attribution_models_smart, smartLastClick, smartSpendBased,
      smartTimeDecay, smartTotalSpend, SmartMap.attrCol, SmartMap.spendCol,
      Frame.sortByDate, sortRowsByDate, insertByDate, dfC3x, Frame.hasCol, Frame.col,
      Row.get, fsum, FV.add, FV.mul, FV.div, FV.lt, FV.isNan, cellLookup]
    norm_num
  · simp [calculate_attribution_model, dfC3x, Frame.hasCol]

/-- C3 (amended): when a platform's columns are entirely absent (no column
name mentions the platform), the smart attribution computation does not
raise and assigns that platform 0 in the last-click, spend-based and
time-decay models, but the LINEAR model still assigns it
`total_revenue / 3`; and `calculate_attribution_model` raises `KeyError`
instead of degrading. -/
theorem C3_missing_platform (w : Nat → List FV) (df : Frame) (p : Platform)
    (out : AttributionModels4)
    (hnone : ∀ c ∈ df.cols, strHasLower c p.lowName = false)
    (hok : calculate_attribution_models_smart w df (smart_column_finder df.cols) =
      Except.ok out) :
    out.last_click.get p = .q 0 ∧
    out.spend_based.get p = .q 0 ∧
    out.time_decay.get p = .q 0 ∧
    (∀ rc, (smart_column_finder df.cols).total_revenue = some rc →
      out.linear.get p = FV.div (fsum (df.col rc)) (.q 3)) ∧
    calculate_attribution_model df = Except.error () := by
  have hattr : (smart_column_finder df.cols).attrCol p = none := by
    rw [smartMap_attrCol]
    exact find_none_of_no_platform df.cols p.lowName "revenue" hnone
  have hspend : (smart_column_finder df.cols).spendCol p = none := by
    rw [smartMap_spendCol]
    exact find_none_of_no_platform df.cols p.lowName "spend" hnone
  have hscol : df.hasCol (p.lowName ++ "_spend") = false := by
    by_contra hcon
    have hmem : (p.lowName ++ "_spend") ∈ df.cols := by
      have := Bool.of_not_eq_false hcon
      simpa [Frame.hasCol] using this
    have := hnone _ hmem
    cases p <;> simp [Platform.lowName] at this <;> revert this <;> decide
  unfold calculate_attribution_models_smart at hok
  split at hok
  next hmrc => exact Except.noConfusion hok
  next rc hmrc =>
    by_cases hrc : df.hasCol rc = true
    case neg =>
      rw [if_neg hrc] at hok
      exact Except.noConfusion hok
    case pos =>
      rw [if_pos hrc] at hok
      simp only [Except.ok.injEq] at hok
      have hout := hok.symm
      refine ⟨?_, ?_, ?_, ?_, ?_⟩
      · rw [hout]
        cases p <;> simp [Alloc.get, smartLastClick, SmartMap.attrCol] <;>
          simp [SmartMap.attrCol] at hattr <;> simp [hattr]
      · rw [hout]
        cases p <;> simp [Alloc.get, smartSpendBased, SmartMap.spendCol] <;>
          simp [SmartMap.spendCol] at hspend <;> simp [hspend]
      · rw [hout]
        cases p <;> simp [Alloc.get, smartTimeDecay, SmartMap.attrCol] <;>
          simp [SmartMap.attrCol] at hattr <;> simp [hattr]
      · intro rc' hrc'
        rw [hmrc] at hrc'
        have : rc' = rc := (Option.some.inj hrc').symm
        rw [this, hout]
        cases p <;> simp [Alloc.get]
      · cases p <;>
          simp [Platform.lowName] at hscol <;>
          simp [calculate_attribution_model, hscol]

/-- Witness for C3 (amended) at `dfC3x` and the tiktok platform. -/
theorem C3_missing_platform_witness :
    (∀ c ∈ dfC3x.cols, strHasLower c Platform.tiktok.lowName = false) ∧
    calculate_attribution_models_smart (fun n => List.replicate n (FV.q 1)) dfC3x
      (smart_column_finder dfC3x.cols) = Except.ok
        ⟨⟨.q 100, .q 50, .q 0⟩, ⟨.q 180, .q 120, .q 0⟩, ⟨.q 100, .q 50, .q 0⟩,
         ⟨.q 100, .q 100, .q 100⟩⟩ ∧
    (⟨⟨.q 100, .q 50, .q 0⟩, ⟨.q 180, .q 120, .q 0⟩, ⟨.q 100, .q 50, .q 0⟩,
      ⟨.q 100, .q 100, .q 100⟩⟩ : AttributionModels4).last_click.get .tiktok = .q 0 ∧
    (⟨⟨.q 100, .q 50, .q 0⟩, ⟨.q 180, .q 120, .q 0⟩, ⟨.q 100, .q 50, .q 0⟩,
      ⟨.q 100, .q 100, .q 100⟩⟩ : AttributionModels4).linear.get .tiktok =
      FV.div (fsum (dfC3x.col "total_revenue")) (.q 3) ∧
    calculate_attribution_model dfC3x = Except.error () := by
  have hnone : ∀ c ∈ dfC3x.cols, strHasLower c Platform.tiktok.lowName = false := by
    decide
  have hm : smart_column_finder dfC3x.cols =
      ⟨some "total_revenue", some "facebook_attributed revenue",
       some "google_attributed revenue", none, some "facebook_spend",
       some "google_spend", none, none⟩ := by
    decide
  have hok : calculate_attribution_models_smart (fun n => List.replicate n (FV.q 1)) dfC3x
      (smart_column_finder dfC3x.cols) = Except.ok
        ⟨⟨.q 100, .q 50, .q 0⟩, ⟨.q 180, .q 120, .q 0⟩, ⟨.q 100, .q 50, .q 0⟩,
         ⟨.q 100, .q 100, .q 100⟩⟩ := by
    rw [hm]
    simp [calculate_attribution_models_smart, smartLastClick, smartSpendBased,
      smartTimeDecay, smartTotalSpend, SmartMap.attrCol, SmartMap.spendCol,
      Frame.sortByDate, sortRowsByDate, insertByDate, dfC3x, Frame.hasCol, Frame.col,
      Row.get, fsum, FV.add, FV.mul, FV.div, FV.lt, FV.isNan, cellLookup]
    norm_num
  have hmain := C3_missing_platform (fun n => List.replicate n (FV.q 1)) dfC3x
    .tiktok _ hnone hok
  exact ⟨hnone, hok, hmain.1, hmain.2.2.2.1 "total_revenue" (by decide), hmain.2.2.2.2⟩

theorem whereRatio_guardedOK (num den : FV) :
    guardedOK num den (whereRatio num den) := by
  refine ⟨?_, ?_, ?_⟩
  · intro x d hx hd
    subst hx
    subst hd
    unfold whereRatio
    constructor
    · intro hpos
      rw [if_pos (by simp [FV.lt, hpos])]
      simp [FV.div, ne_of_gt hpos]
    · intro hnp
      rw [if_neg (by simp [FV.lt]; exact hnp)]
  · intro hnan
    have hd : den = .nan := by cases den <;> simp_all [FV.isNan]
    subst hd
    simp [whereRatio, FV.lt]
  · intro hd
    subst hd
    simp [whereRatio, FV.lt]

theorem div_replaceInf_dailyOK (num den : FV) :
    dailyOK num den (FV.div num den).replaceInf := by
  refine ⟨?_, ?_, ?_⟩
  · intro x d hx hd
    subst hx
    subst hd
    refine ⟨?_, ?_, ?_⟩
    · intro hd0
      simp [FV.div, hd0, FV.replaceInf]
    · intro hd0 hx0
      rcases lt_trichotomy x 0 with hx1 | hx1 | hx1
      · simp [FV.div, hd0, hx1, not_lt.mpr (le_of_lt hx1), FV.replaceInf]
      · exact absurd hx1 hx0
      · simp [FV.div, hd0, hx1, FV.replaceInf]
    · intro hd0 hx0
      simp [FV.div, hd0, hx0, FV.replaceInf]
  · intro hnan
    have hn : num = .nan := by cases num <;> simp_all [FV.isNan]
    subst hn
    cases den <;> simp [FV.div, FV.replaceInf]
  · intro hnan
    have hd : den = .nan := by cases den <;> simp_all [FV.isNan]
    subst hd
    cases num <;> simp [FV.div, FV.replaceInf]

theorem colExpr_setCol_self (f : Frame) (c n d : String) (G : FV → FV → FV)
    (hn : n ≠ c) (hd : d ≠ c) :
    colExpr (f.setCol c (fun r => G (r.get n) (r.get d))) c n d G := by
  intro r' hr'
  obtain ⟨r, hr, he⟩ := mem_rows_setCol hr'
  rw [he, Row.get_set_self, Row.get_set_other r c n _ hn, Row.get_set_other r c d _ hd]

theorem colExpr_setCol_other (f : Frame) (c n d c' : String) (G : FV → FV → FV)
    (g : Row → FV) (hc : c ≠ c') (hn : n ≠ c') (hd : d ≠ c')
    (h : colExpr f c n d G) : colExpr (f.setCol c' g) c n d G := by
  intro r' hr'
  obtain ⟨r, hr, he⟩ := mem_rows_setCol hr'
  rw [he, Row.get_set_other r c' c _ hc, Row.get_set_other r c' n _ hn,
    Row.get_set_other r c' d _ hd]
  exact h r hr

theorem colExpr_sortByDate (f : Frame) (c n d : String) (G : FV → FV → FV)
    (h : colExpr f c n d G) : colExpr f.sortByDate c n d G := by
  intro r' hr'
  exact h r' (mem_sortRowsByDate.mp hr')

theorem colExpr_setColVals (f : Frame) (c n d c' : String) (G : FV → FV → FV)
    (vs : List FV) (hc : c ≠ c') (hn : n ≠ c') (hd : d ≠ c')
    (h : colExpr f c n d G) : colExpr (f.setColVals c' vs) c n d G := by
  intro r' hr'
  obtain ⟨r, v, hr, he⟩ := mem_rows_setColVals hr'
  rw [he, Row.get_set_other r c' c _ hc, Row.get_set_other r c' n _ hn,
    Row.get_set_other r c' d _ hd]
  exact h r hr

theorem colExpr_addPlatformCtr (f : Frame) (c n d p : String) (G : FV → FV → FV)
    (hc : c ≠ p ++ "_ctr") (hn : n ≠ p ++ "_ctr") (hd : d ≠ p ++ "_ctr")
    (h : colExpr f c n d G) : colExpr (addPlatformCtr p f) c n d G := by
  unfold addPlatformCtr
  split
  · exact colExpr_setCol_other f c n d _ G _ hc hn hd h
  · exact h

theorem colExpr_addPlatformCpc (f : Frame) (c n d p : String) (G : FV → FV → FV)
    (hc : c ≠ p ++ "_cpc") (hn : n ≠ p ++ "_cpc") (hd : d ≠ p ++ "_cpc")
    (h : colExpr f c n d G) : colExpr (addPlatformCpc p f) c n d G := by
  unfold addPlatformCpc
  split
  · exact colExpr_setCol_other f c n d _ G _ hc hn hd h
  · exact h

theorem colExpr_addPlatformRoas (f : Frame) (c n d p : String) (G : FV → FV → FV)
    (hc : c ≠ p ++ "_roas") (hn : n ≠ p ++ "_roas") (hd : d ≠ p ++ "_roas")
    (h : colExpr f c n d G) : colExpr (addPlatformRoas p f) c n d G := by
  unfold addPlatformRoas
  split
  · exact colExpr_setCol_other f c n d _ G _ hc hn hd h
  · exact h

theorem guardedOK_of_colExpr (f : Frame) (c n d : String)
    (hinv : colExpr f c n d whereRatio) (r : Row) (hr : r ∈ f.rows) :
    guardedOK (r.get n) (r.get d) (r.get c) := by
  rw [hinv r hr]
  exact whereRatio_guardedOK _ _

theorem dailyOK_of_colExpr (f : Frame) (c n d : String)
    (hinv : colExpr f c n d (fun a b => (FV.div a b).replaceInf)) (r : Row)
    (hr : r ∈ f.rows) :
    dailyOK (r.get n) (r.get d) (r.get c) := by
  rw [hinv r hr]
  exact div_replaceInf_dailyOK _ _

theorem hasCol_addPlatformCtr_of (f : Frame) (p x : String)
    (h : f.hasCol x = true) : (addPlatformCtr p f).hasCol x = true := by
  unfold addPlatformCtr
  split
  · exact hasCol_setCol_of f _ x _ h
  · exact h

theorem hasCol_addPlatformCpc_of (f : Frame) (p x : String)
    (h : f.hasCol x = true) : (addPlatformCpc p f).hasCol x = true := by
  unfold addPlatformCpc
  split
  · exact hasCol_setCol_of f _ x _ h
  · exact h

theorem hasCol_addPlatformRoas_of (f : Frame) (p x : String)
    (h : f.hasCol x = true) : (addPlatformRoas p f).hasCol x = true := by
  unfold addPlatformRoas
  split
  · exact hasCol_setCol_of f _ x _ h
  · exact h

theorem colExpr_addPlatformCtr_self (f : Frame) (p : String)
    (h1 : f.hasCol (p ++ "_impression") = true) (h2 : f.hasCol (p ++ "_clicks") = true)
    (hn : p ++ "_clicks" ≠ p ++ "_ctr") (hd : p ++ "_impression" ≠ p ++ "_ctr") :
    colExpr (addPlatformCtr p f) (p ++ "_ctr") (p ++ "_clicks") (p ++ "_impression")
      whereRatio := by
  unfold addPlatformCtr
  rw [if_pos (by rw [h1, h2]; rfl)]
  exact colExpr_setCol_self f _ _ _ _ hn hd

theorem colExpr_addPlatformCpc_self (f : Frame) (p : String)
    (h1 : f.hasCol (p ++ "_spend") = true) (h2 : f.hasCol (p ++ "_clicks") = true)
    (hn : p ++ "_spend" ≠ p ++ "_cpc") (hd : p ++ "_clicks" ≠ p ++ "_cpc") :
    colExpr (addPlatformCpc p f) (p ++ "_cpc") (p ++ "_spend") (p ++ "_clicks")
      whereRatio := by
  unfold addPlatformCpc
  rw [if_pos (by rw [h1, h2]; rfl)]
  exact colExpr_setCol_self f _ _ _ _ hn hd

theorem colExpr_addPlatformRoas_self (f : Frame) (p : String)
    (h1 : f.hasCol (p ++ "_spend") = true)
    (h2 : f.hasCol (p ++ "_attributed revenue") = true)
    (hn : p ++ "_attributed revenue" ≠ p ++ "_roas") (hd : p ++ "_spend" ≠ p ++ "_roas") :
    colExpr (addPlatformRoas p f) (p ++ "_roas") (p ++ "_attributed revenue")
      (p ++ "_spend") whereRatio := by
  unfold addPlatformRoas
  rw [if_pos (by rw [h1, h2]; rfl)]
  exact colExpr_setCol_self f _ _ _ _ hn hd

theorem colExpr_setCol_self_daily (f : Frame) (c n d : String) (hn : n ≠ c) (hd : d ≠ c) :
    colExpr (f.setCol c (fun r => (FV.div (r.get n) (r.get d)).replaceInf)) c n d
      (fun a b => (FV.div a b).replaceInf) := by
  intro r' hr'
  obtain ⟨r, hr, he⟩ := mem_rows_setCol hr'
  rw [he, Row.get_set_self, Row.get_set_other r c n _ hn, Row.get_set_other r c d _ hd]

/-- C1 counterexample: on a day where both attributed revenue and spend are
0, `calculate_daily_performance_metrics` leaves `daily_roas` as NaN (the
float division 0/0 is NaN, and `replace([np.inf, -np.inf], 0)` touches only
infinities), not the exact 0 the zero-guard universality demands. -/
theorem C1_zero_guard_counterexample :
    (calculate_daily_performance_metrics dfC1x).map
        (fun f => (rowOf f).get "daily_roas") = Except.ok FV.nan ∧
      FV.nan ≠ FV.q 0 := by
  constructor
  · simp [calculate_daily_performance_metrics, dailyPipeline, dailyF5, dfC1x,
      Frame.hasCol, Frame.setCol, Frame.setColVals, Frame.sortByDate, sortRowsByDate,
      insertByDate, Frame.col, rowOf, Row.get, Row.set, cellLookup, rollMean7,
      fmean, fsum, fcount, FV.div, FV.replaceInf, FV.isNan, List.range_succ,
      List.zip_cons_cons, List.take, List.drop, Option.getD, Option.isSome,
      List.head?, List.headD, Except.map]
  · decide

attribute [irreducible] Frame.setCol Frame.setColVals Frame.sortByDate addPlatformCtr addPlatformCpc addPlatformRoas derivedF5 derivedF13 derivedPipeline dailyF5 dailyPipeline

set_option maxHeartbeats 8000000 in
/-- C1 (amended): in `calculate_derived_metrics` every ratio column is the
`np.where(den > 0, num/den, 0)` guard — the quotient when the denominator
is positive and exactly 0 otherwise (also on NaN), the per-platform ones
when their source columns are present — while in
`calculate_daily_performance_metrics` the five daily ratio columns are a
plain division with infinities replaced by 0: the quotient for a nonzero
denominator, 0 when the denominator is 0 and the numerator is not, but NaN
(not 0) when numerator and denominator are both 0. -/
theorem C1_ratio_zero_guards :
    (∀ df out, calculate_derived_metrics df = Except.ok out → ∀ r ∈ out.rows,
      guardedOK (r.get "spend") (r.get "new customers") (r.get "cac") ∧
      guardedOK (r.get "total_revenue") (r.get "orders") (r.get "aov") ∧
      guardedOK (r.get "clicks") (r.get "impression") (r.get "ctr") ∧
      guardedOK (r.get "spend") (r.get "clicks") (r.get "cpc") ∧
      guardedOK (r.get "orders") (r.get "clicks") (r.get "conversion_rate") ∧
      guardedOK (r.get "total_revenue") (r.get "impression")
        (r.get "revenue_per_impression") ∧
      (df.hasCol "facebook_impression" = true → df.hasCol "facebook_clicks" = true →
        guardedOK (r.get "facebook_clicks") (r.get "facebook_impression")
          (r.get "facebook_ctr")) ∧
      (df.hasCol "google_impression" = true → df.hasCol "google_clicks" = true →
        guardedOK (r.get "google_clicks") (r.get "google_impression")
          (r.get "google_ctr")) ∧
      (df.hasCol "tiktok_impression" = true → df.hasCol "tiktok_clicks" = true →
        guardedOK (r.get "tiktok_clicks") (r.get "tiktok_impression")
          (r.get "tiktok_ctr")) ∧
      (df.hasCol "facebook_spend" = true → df.hasCol "facebook_clicks" = true →
        guardedOK (r.get "facebook_spend") (r.get "facebook_clicks")
          (r.get "facebook_cpc")) ∧
      (df.hasCol "google_spend" = true → df.hasCol "google_clicks" = true →
        guardedOK (r.get "google_spend") (r.get "google_clicks") (r.get "google_cpc")) ∧
      (df.hasCol "tiktok_spend" = true → df.hasCol "tiktok_clicks" = true →
        guardedOK (r.get "tiktok_spend") (r.get "tiktok_clicks") (r.get "tiktok_cpc")) ∧
      (df.hasCol "facebook_spend" = true →
        df.hasCol "facebook_attributed revenue" = true →
        guardedOK (r.get "facebook_attributed revenue") (r.get "facebook_spend")
          (r.get "facebook_roas")) ∧
      (df.hasCol "google_spend" = true → df.hasCol "google_attributed revenue" = true →
        guardedOK (r.get "google_attributed revenue") (r.get "google_spend")
          (r.get "google_roas")) ∧
      (df.hasCol "tiktok_spend" = true → df.hasCol "tiktok_attributed revenue" = true →
        guardedOK (r.get "tiktok_attributed revenue") (r.get "tiktok_spend")
          (r.get "tiktok_roas"))) ∧
    (∀ df out, calculate_daily_performance_metrics df = Except.ok out → ∀ r ∈ out.rows,
      dailyOK (r.get "attributed revenue") (r.get "spend") (r.get "daily_roas") ∧
      dailyOK (r.get (if df.hasCol "total_revenue" then "total_revenue"
          else "total revenue"))
        (r.get (if df.hasCol "orders" then "orders" else "# of orders"))
        (r.get "daily_aov") ∧
      dailyOK (r.get "spend") (r.get "new customers") (r.get "daily_cac") ∧
      dailyOK (r.get (if df.hasCol "orders" then "orders" else "# of orders"))
        (r.get "clicks") (r.get "daily_conversion_rate") ∧
      dailyOK (r.get "clicks") (r.get "impression") (r.get "daily_ctr")) := by
  constructor
  · intro df out h
    simp only [calculate_derived_metrics] at h
    split at h
    case isFalse => exact Except.noConfusion h
    case isTrue hreq =>
      have hout := (Except.ok.inj h).symm
      rw [hout]
      intro r hr
      refine ⟨?_, ?_, ?_, ?_, ?_, ?_, ?_, ?_, ?_, ?_, ?_, ?_, ?_, ?_, ?_⟩
      all_goals
        try refine guardedOK_of_colExpr _ _ _ _ ?_ r hr
      all_goals
        try (intro hx1 hx2; refine guardedOK_of_colExpr _ _ _ _ ?_ r hr)
      all_goals
        repeat (first
          | assumption
          | apply colExpr_addPlatformCtr_self
          | apply colExpr_addPlatformCpc_self
          | apply colExpr_addPlatformRoas_self
          | apply colExpr_setCol_self
          | apply colExpr_setCol_other
          | apply colExpr_setColVals
          | apply colExpr_sortByDate
          | apply colExpr_addPlatformCtr
          | apply colExpr_addPlatformCpc
          | apply colExpr_addPlatformRoas
          | apply hasCol_setCol_of
          | apply hasCol_addPlatformCtr_of
          | apply hasCol_addPlatformCpc_of
          | apply hasCol_addPlatformRoas_of
          | simp only [derivedPipeline]
          | simp only [derivedF13, addAll, platformNames]
          | simp only [derivedF5]
          | decide
          | simp)
  · intro df out h
    simp only [calculate_daily_performance_metrics] at h
    by_cases hrc : df.hasCol "total_revenue" = true <;>
      by_cases hoc : df.hasCol "orders" = true
    all_goals
      simp only [hrc, hoc, eq_self_iff_true, Bool.false_eq_true, if_true, if_false,
        ite_true, ite_false] at h ⊢
    all_goals split at h
    all_goals
      first
        | exact Except.noConfusion h
        | (have hout := (Except.ok.inj h).symm
           rw [hout]
           intro r hr
           refine ⟨?_, ?_, ?_, ?_, ?_⟩ <;>
             refine dailyOK_of_colExpr _ _ _ _ ?_ r hr <;>
             repeat (first
               | apply colExpr_setCol_self_daily
               | apply colExpr_setCol_other
               | apply colExpr_setColVals
               | apply colExpr_sortByDate
               | simp only [dailyPipeline]
               | simp only [dailyF5]
               | decide
               | simp))

set_option maxHeartbeats 4000000 in
/-- C1 witness: the zero-guard theorem applied at the concrete table
`dfC1w` (which carries the facebook source columns, so that platform loop
fires): `calculate_derived_metrics` returns, the cac and facebook_ctr
guards give the actual quotients 10/2 and 2/40, and the daily ROAS is the
plain quotient 8/10. -/
theorem C1_ratio_zero_guards_witness :
    calculate_derived_metrics dfC1w = Except.ok (derivedPipeline dfC1w) ∧
    (rowOf (derivedPipeline dfC1w)).get "cac" = FV.q 5 ∧
    (rowOf (derivedPipeline dfC1w)).get "facebook_ctr" = FV.q (1 / 20) ∧
    calculate_daily_performance_metrics dfC1w =
      Except.ok (dailyPipeline dfC1w "total_revenue" "orders") ∧
    (rowOf (dailyPipeline dfC1w "total_revenue" "orders")).get "daily_roas" =
      FV.q (4 / 5) := by
  have hok : calculate_derived_metrics dfC1w = Except.ok (derivedPipeline dfC1w) := by
    unfold calculate_derived_metrics
    rw [if_pos (by decide)]
  have hrows : (derivedPipeline dfC1w).rows = [rowC1d] := by
    simp [derivedPipeline, derivedF13, derivedF5, addAll, platformNames,
      addPlatformCtr, addPlatformCpc, addPlatformRoas, whereRatio, FV.lt,
      dfC1w, rowC1d, Frame.hasCol, Frame.setCol, Frame.setColVals,
      Frame.sortByDate, sortRowsByDate, insertByDate, Frame.col, rollMean7,
      fmean, fsum, fcount, Row.get, Row.set, cellLookup, FV.div,
      FV.isNan, FV.add, List.range_succ, List.zip_cons_cons, List.take,
      List.drop]
    norm_num
  have hrow : rowOf (derivedPipeline dfC1w) = rowC1d := by
    simp [rowOf, hrows]
  have hmem : rowC1d ∈ (derivedPipeline dfC1w).rows := by
    rw [hrows]
    exact List.mem_singleton.mpr rfl
  have h1 := C1_ratio_zero_guards.1 dfC1w (derivedPipeline dfC1w) hok rowC1d hmem
  have hcac : rowC1d.get "cac" = FV.q (10 / 2) :=
    (h1.1.1 10 2 (by decide) (by decide)).1 (by norm_num)
  have hfb : rowC1d.get "facebook_ctr" = FV.q (2 / 40) :=
    ((h1.2.2.2.2.2.2.1 (by decide) (by decide)).1 2 40 (by decide) (by decide)).1
      (by norm_num)
  have hok2 : calculate_daily_performance_metrics dfC1w =
      Except.ok (dailyPipeline dfC1w "total_revenue" "orders") := by
    have ht : dfC1w.hasCol "total_revenue" = true := by decide
    have ho : dfC1w.hasCol "orders" = true := by decide
    simp only [calculate_daily_performance_metrics, ht, ho, eq_self_iff_true,
      if_true, ite_true]
    rw [if_pos (by decide)]
  have hrows2 : (dailyPipeline dfC1w "total_revenue" "orders").rows = [rowC1y] := by
    simp [dailyPipeline, dailyF5, dfC1w, rowC1y, Frame.hasCol, Frame.setCol,
      Frame.setColVals, Frame.sortByDate, sortRowsByDate, insertByDate,
      Frame.col, rollMean7, fmean, fsum, fcount, Row.get, Row.set, cellLookup,
      FV.div, FV.replaceInf, FV.isNan, FV.add, List.range_succ,
      List.zip_cons_cons, List.take, List.drop]
    norm_num
  have hrow2 : rowOf (dailyPipeline dfC1w "total_revenue" "orders") = rowC1y := by
    simp [rowOf, hrows2]
  have hmem2 : rowC1y ∈ (dailyPipeline dfC1w "total_revenue" "orders").rows := by
    rw [hrows2]
    exact List.mem_singleton.mpr rfl
  have h2 := C1_ratio_zero_guards.2 dfC1w
    (dailyPipeline dfC1w "total_revenue" "orders") hok2 rowC1y hmem2
  have hdr : rowC1y.get "daily_roas" = FV.q (8 / 10) :=
    (h2.1.1 8 10 (by decide) (by decide)).1 (by norm_num)
  refine ⟨hok, ?_, ?_, hok2, ?_⟩
  · rw [hrow, hcac]
    exact congrArg FV.q (by norm_num)
  · rw [hrow, hfb]
    exact congrArg FV.q (by norm_num)
  · rw [hrow2, hdr]
    exact congrArg FV.q (by norm_num)

end Spec2Proof
